import Mathlib

/-!
# Builder UI: `src/builder_ui/api.js` and `src/builder_ui/script.js`

A shallow embedding of

* the class `BuilderWebSocket` of `api.js` (message dispatch, the three
  message handlers, `send`, `connect` and the reconnection on close) over an
  explicit model of the part of the page the handlers touch: the elements
  `progressFill`, `buildStatus` and `buildLog`, and the alerts raised so far;
* the poller `APIEventHandler.pollBuildStatus` and the method
  `BuilderAPI.request` of `api.js`;
* the functions `createProject`, `createExistingProject`, `addCustomColor`,
  `deleteColor` and `executeBuild` (with the callbacks it chains) of
  `script.js` over the global variables and the forms they read and write.

JavaScript values are modelled as far as the code inspects them.  Numbers
are the integers from `-2^53` to `2^53`: each of them is a Number and its
`ToString` is its decimal numeral; fractions and larger magnitudes are
outside the embedding.  A field that is absent reads as `undefined`.
Built-ins of the platform (`JSON.parse`, `JSON.stringify`, `new WebSocket`,
`fetch`, `localStorage.setItem`, the clock and the random id) enter as
parameters or by their outcome.
-/

namespace BuilderUI

/-! ## JavaScript values -/

/-- The errors the embedded code can raise. -/
inductive JSError where
  | typeError
  | syntaxError
  deriving DecidableEq, Repr

/-- An integer from `-2^53` to `2^53`.  Every such integer is a Number (no
rounding takes place), and `ToString` of it is its decimal numeral. -/
structure SafeInt where
  val : Int
  safe : val.natAbs ≤ 9007199254740992
  deriving DecidableEq, Repr

/-- The natural number `n`, at most `2^53`, as a `SafeInt`. -/
def SafeInt.ofNat (n : Nat) (h : n ≤ 9007199254740992) : SafeInt :=
  ⟨(n : Int), by omega⟩

/-- A JavaScript value as it reaches the handlers: what `JSON.parse` can
produce, together with `undefined` (the reading of an absent property).  A
number is a `SafeInt`.  An object is its list of own properties; reading a
key takes the first entry with that key. -/
inductive JSValue where
  | undefined
  | null
  | bool (b : Bool)
  | num (n : SafeInt)
  | str (s : String)
  | arr (items : List JSValue)
  | obj (fields : List (String × JSValue))

namespace JSValue

/-- Own-property lookup in a property list. -/
def lookup (key : String) : List (String × JSValue) → Option JSValue
  | [] => none
  | (k, v) :: rest => if k = key then some v else lookup key rest

/-- Truthiness (`ToBoolean`): `undefined`, `null`, `false`, `0` and the empty
string are falsy, every other value (objects and arrays included) is truthy. -/
def truthy : JSValue → Bool
  | undefined => false
  | null => false
  | bool b => b
  | num n => n.val != 0
  | str s => s != ""
  | arr _ => true
  | obj _ => true

end JSValue

/-- Property read `data.key` for the keys the code reads (`type`,
`progress`, `message`, `log`, `output_path`, `error`, `headers`,
`folderPath`, `id`, `success`, `exePath`), none of which is defined on a
built-in prototype: reading from `null` or `undefined` raises a
`TypeError`, an object yields its own property or `undefined`, and a
primitive or an array yields `undefined`. -/
def getProp (data : JSValue) (key : String) : Except JSError JSValue :=
  match data with
  | .undefined => .error .typeError
  | .null => .error .typeError
  | .obj fields => .ok ((JSValue.lookup key fields).getD .undefined)
  | _ => .ok .undefined

mutual
/-- The conversion `ToString`, `none` standing for a raised `TypeError`.  An
object converts through `Object.prototype.toString` to `[object Object]`,
unless it has an own property `toString`: a parsed value is never callable,
so no method yields a primitive and the conversion raises.  An array converts
through `join`. -/
def jsToString : JSValue → Option String
  | .undefined => some "undefined"
  | .null => some "null"
  | .bool b => some (if b then "true" else "false")
  | .num n => some (toString n.val)
  | .str s => some s
  | .arr items => joinItems true items
  | .obj fields =>
      match JSValue.lookup "toString" fields with
      | some _ => none
      | none => some "[object Object]"
/-- The elements of an array joined with commas (`Array.prototype.join`):
an `undefined` or `null` element contributes the empty string, any other
element its `ToString`; `first` tells that no element precedes, so that no
comma is due. -/
def joinItems (first : Bool) : List JSValue → Option String
  | [] => some ""
  | x :: rest =>
      let item : Option String :=
        match x with
        | .undefined => some ""
        | .null => some ""
        | _ => jsToString x
      match item, joinItems false rest with
      | some a, some b => some ((if first then "" else ",") ++ a ++ b)
      | _, _ => none
end

/-! ## The page -/

/-- A DOM element, as far as the handlers use it: `width` is the string last
assigned to `style.width`, `textContent` its text, `scrollTop` the value last
assigned to `scrollTop`. -/
structure Element where
  width : String
  textContent : String
  scrollTop : Nat
  deriving DecidableEq, Repr

/-- The part of the document and window the handlers act on.
`progressFill`, `buildStatus` and `buildLog` are the results of
`document.getElementById` (`none` when there is no such element), `alerts`
the messages passed to `alert` so far, oldest first, and `scrollHeight` the
layout height the browser reports for `buildLog` holding a given text. -/
structure Page where
  progressFill : Option Element
  buildStatus : Option Element
  buildLog : Option Element
  alerts : List String
  scrollHeight : String → Nat

/-- The result of running a handler: the page it leaves behind and the error
it raised, if any.  A handler that raises keeps the writes made before. -/
structure Outcome where
  page : Page
  error : Option JSError

/-- Sequencing of statements: the next statement runs only when the previous
one raised nothing. -/
def Outcome.andThen (o : Outcome) (next : Page → Outcome) : Outcome :=
  match o.error with
  | some _ => o
  | none => next o.page

/-- The value stored by an assignment to `textContent` (a nullable
`DOMString`): `null` and `undefined` store the empty string, any other value
its `ToString`. -/
def toTextContent : JSValue → Option String
  | .undefined => some ""
  | .null => some ""
  | v => jsToString v

/-! ## `BuilderWebSocket`: the message handlers -/

/-- Line 208: `if (progressFill) progressFill.style.width = data.progress + '%'`. -/
def setProgressWidth (data : JSValue) (pg : Page) : Outcome :=
  match pg.progressFill with
  | none => ⟨pg, none⟩
  | some el =>
    match getProp data "progress" with
    | .error e => ⟨pg, some e⟩
    | .ok progress =>
      match jsToString progress with
      | none => ⟨pg, some .typeError⟩
      | some s => ⟨{ pg with progressFill := some { el with width := s ++ "%" } }, none⟩

/-- Line 209: `if (buildStatus) buildStatus.textContent = data.message`. -/
def setStatusText (data : JSValue) (pg : Page) : Outcome :=
  match pg.buildStatus with
  | none => ⟨pg, none⟩
  | some el =>
    match getProp data "message" with
    | .error e => ⟨pg, some e⟩
    | .ok message =>
      match toTextContent message with
      | none => ⟨pg, some .typeError⟩
      | some s => ⟨{ pg with buildStatus := some { el with textContent := s } }, none⟩

/-- Lines 210 to 213: when `buildLog` exists and `data.log` is truthy,
`buildLog.textContent += data.log + '\n'` and the log is scrolled to its
end. -/
def appendLog (data : JSValue) (pg : Page) : Outcome :=
  match pg.buildLog with
  | none => ⟨pg, none⟩
  | some el =>
    match getProp data "log" with
    | .error e => ⟨pg, some e⟩
    | .ok log =>
      if log.truthy then
        match jsToString log with
        | none => ⟨pg, some .typeError⟩
        | some s =>
          let text := el.textContent ++ (s ++ "\n")
          let el1 : Element := { el with textContent := text }
          let el2 : Element := { el1 with scrollTop := pg.scrollHeight text }
          ⟨{ pg with buildLog := some el2 }, none⟩
      else ⟨pg, none⟩

/-- The method `updateBuildProgress(data)`. -/
def updateBuildProgress (data : JSValue) (pg : Page) : Outcome :=
  (setProgressWidth data pg).andThen fun pg1 =>
    (setStatusText data pg1).andThen fun pg2 =>
      appendLog data pg2

/-- A call `alert(prefix + ToString(data.key))`, the shape of both terminal
handlers (a template literal converts its hole with `ToString`). -/
def alertField (pre key : String) (data : JSValue) (pg : Page) : Outcome :=
  match getProp data key with
  | .error e => ⟨pg, some e⟩
  | .ok v =>
    match jsToString v with
    | none => ⟨pg, some .typeError⟩
    | some s => ⟨{ pg with alerts := pg.alerts ++ [pre ++ s] }, none⟩

/-- The method `handleBuildComplete(data)`. -/
def handleBuildComplete (data : JSValue) (pg : Page) : Outcome :=
  alertField "✓ Build complete!\n\nOutput: " "output_path" data pg

/-- The method `handleBuildError(data)`. -/
def handleBuildError (data : JSValue) (pg : Page) : Outcome :=
  alertField "✗ Build failed:\n\n" "error" data pg

/-- The three handlers `handleMessage` can dispatch to. -/
inductive Handler where
  | updateBuildProgress
  | handleBuildComplete
  | handleBuildError
  deriving DecidableEq, Repr

/-- The `switch (data.type)` of `handleMessage`: the case selected by a
discriminator under strict equality, `none` when no case matches (there is no
`default`). -/
def selectHandler : JSValue → Option Handler
  | .str s =>
    if s = "build-progress" then some .updateBuildProgress
    else if s = "build-complete" then some .handleBuildComplete
    else if s = "build-error" then some .handleBuildError
    else none
  | _ => none

/-- The body of the selected case. -/
def Handler.run : Handler → JSValue → Page → Outcome
  | .updateBuildProgress => BuilderUI.updateBuildProgress
  | .handleBuildComplete => BuilderUI.handleBuildComplete
  | .handleBuildError => BuilderUI.handleBuildError

/-- The method `handleMessage(data)`. -/
def handleMessage (data : JSValue) (pg : Page) : Outcome :=
  match getProp data "type" with
  | .error e => ⟨pg, some e⟩
  | .ok type =>
    match selectHandler type with
    | some h => h.run data pg
    | none => ⟨pg, none⟩

/-- The handler installed as `ws.onmessage`.  `JSON.parse` is a built-in of
the language: the frame enters as the outcome of `JSON.parse(event.data)`,
the decoded value or the `SyntaxError` raised for text that is not JSON. -/
def onmessage (parsed : Except JSError JSValue) (pg : Page) : Outcome :=
  match parsed with
  | .error e => ⟨pg, some e⟩
  | .ok data => handleMessage data pg

/-- A sequence of messages handled in arrival order.  Each message is one
invocation of the handler, so an error raised for one message does not keep
the later ones from being handled. -/
def handleAll : List JSValue → Page → Page
  | [], pg => pg
  | data :: rest, pg => handleAll rest (handleMessage data pg).page

/-- The value of the progress bar as a number: `n` when `style.width` of
`progressFill` is the decimal numeral of `n` followed by `%`. -/
def readPercent (s : String) : Option Nat :=
  match s.toList.reverse with
  | '%' :: ds =>
    if ds ≠ [] ∧ ds.all Char.isDigit then
      some (ds.reverse.foldl (fun acc c => 10 * acc + (c.toNat - '0'.toNat)) 0)
    else none
  | _ => none

/-- The progress value shown on the page, if the bar shows one. -/
def shownProgress (pg : Page) : Option Nat :=
  match pg.progressFill with
  | some el => readPercent el.width
  | none => none

/-! ## `BuilderWebSocket`: `send` -/

/-- The `readyState` of a `WebSocket`: `CONNECTING`, `OPEN`, `CLOSING`,
`CLOSED`. -/
inductive ReadyState where
  | connecting
  | open
  | closing
  | closed
  deriving DecidableEq, Repr

/-- A `WebSocket` object: its state and the frames handed to its `send`,
oldest first. -/
structure Socket where
  readyState : ReadyState
  sent : List String
  deriving DecidableEq, Repr

/-- The fields of a `BuilderWebSocket`: `ws` is `none` while `this.ws` is
`null`. -/
structure Channel where
  url : String
  ws : Option Socket
  deriving DecidableEq, Repr

/-- The method `send(data)`.  `JSON.stringify` is a built-in of the language
and is taken as a parameter: `stringify data` is the JSON text of `data`, or
`none` where `JSON.stringify` returns `undefined`, which `WebSocket.send`
converts to the text `undefined`. -/
def send (stringify : JSValue → Option String) (data : JSValue) (ch : Channel) : Channel :=
  match ch.ws with
  | none => ch
  | some sock =>
    if sock.readyState = ReadyState.open then
      { ch with ws := some { sock with sent := sock.sent ++ [(stringify data).getD "undefined"] } }
    else ch

/-- What the page shows of the build: the progress bar, the status line and
the log. -/
def Page.display (pg : Page) : Option Element × Option Element × Option Element :=
  (pg.progressFill, pg.buildStatus, pg.buildLog)

/-- A terminal message whose alert text can be formed: its `type` is
`build-complete` or `build-error` and the field the alert shows
(`output_path`, respectively `error`) converts to a string, as every
primitive value and an absent field do. -/
def IsTerminalNotice (data : JSValue) : Prop :=
  (getProp data "type" = .ok (.str "build-complete") ∧
    ∃ v text, getProp data "output_path" = .ok v ∧ jsToString v = some text) ∨
  (getProp data "type" = .ok (.str "build-error") ∧
    ∃ v text, getProp data "error" = .ok v ∧ jsToString v = some text)

/-- The field `key` of `data` can be read and converts to a string (every
primitive value and an absent field do; an object does unless it has an own
property `toString`). -/
def Converts (data : JSValue) (key : String) : Prop :=
  ∃ v text, getProp data key = .ok v ∧ jsToString v = some text

/-! ## `BuilderWebSocket`: connecting and reconnecting -/

/-- A `BuilderWebSocket` in the event loop.  `channel` holds its fields,
`wired` tells whether the socket in `this.ws` carries the four handlers
`connect()` assigns (`onopen`, `onmessage`, `onerror`, `onclose`), `timers`
lists the delays in milliseconds of the pending calls
`setTimeout(() => this.connect(), delay)`, oldest first, and `console` the
lines the channel has logged. -/
structure Runtime where
  channel : Channel
  wired : Bool
  timers : List Nat
  console : List String
  deriving DecidableEq, Repr

/-- The `try` block of `connect()` (lines 164 to 183).  `raised` is the
outcome of the built-in constructor `new WebSocket(this.url)`: the error it
raises, or `none` when it returns a socket, which is then in the state
`CONNECTING`, is stored in `this.ws` and gets the four handlers. -/
def connectTry (raised : Option JSError) (rt : Runtime) : Except JSError Runtime :=
  match raised with
  | some e => .error e
  | none =>
    .ok { rt with
      channel := { rt.channel with ws := some ⟨ReadyState.connecting, []⟩ }
      wired := true }

/-- The method `connect()`: the `try` block and its `catch`, which logs the
error and raises nothing. -/
def connect (raised : Option JSError) (rt : Runtime) : Except JSError Runtime :=
  match connectTry raised rt with
  | .ok rt1 => .ok rt1
  | .error _ => .ok { rt with console := rt.console ++ ["WebSocket connection failed:"] }

/-- The constructor `new BuilderWebSocket(url)`: it sets `this.url`, sets
`this.ws` to `null` and calls `connect()`. -/
def newBuilderWebSocket (url : String) (raised : Option JSError) : Except JSError Runtime :=
  connect raised { channel := ⟨url, none⟩, wired := false, timers := [], console := [] }

/-- Lines 231 to 237: `socket` is the new `BuilderWebSocket`, or stays `null`
with a line logged when the construction raises. -/
def initSocket (raised : Option JSError) : Option Runtime × List String :=
  match newBuilderWebSocket "ws://localhost:8000/ws" raised with
  | .ok rt => (some rt, [])
  | .error _ => (none, ["WebSocket not available, using polling instead"])

/-- The delay `connect()` passes to `setTimeout` in `onclose`. -/
def reconnectDelay : Nat := 5000

/-- The handler `onopen` (lines 166 to 168). -/
def onopen (rt : Runtime) : Runtime :=
  { rt with console := rt.console ++ ["WebSocket connected"] }

/-- The handler `onerror` (lines 175 to 177). -/
def onerror (rt : Runtime) : Runtime :=
  { rt with console := rt.console ++ ["WebSocket error:"] }

/-- The handler `onclose` (lines 179 to 183): it logs the disconnection and
schedules `this.connect()` after `reconnectDelay` milliseconds. -/
def onclose (rt : Runtime) : Runtime :=
  { rt with
    console := rt.console ++ ["WebSocket disconnected"]
    timers := rt.timers ++ [reconnectDelay] }

/-- What the browser delivers to the channel: the socket in `this.ws` opens,
fails, or closes, or the oldest pending timer fires and calls `connect()`,
whose `new WebSocket` raises `raised` or returns. -/
inductive ChannelEvent where
  | opened
  | failed
  | closed
  | timerFired (raised : Option JSError)
  deriving DecidableEq, Repr

/-- The socket in `this.ws` with its `readyState` set by the browser. -/
def Runtime.setReadyState (rt : Runtime) (state : ReadyState) : Runtime :=
  match rt.channel.ws with
  | none => rt
  | some sock => { rt with channel := { rt.channel with ws := some { sock with readyState := state } } }

/-- One event: the browser updates the socket and runs the handler the
socket carries for the event, if it carries one.  A socket opens only from
the state `CONNECTING` and closes once. -/
def ChannelEvent.step : ChannelEvent → Runtime → Runtime
  | .opened, rt =>
    match rt.channel.ws with
    | none => rt
    | some sock =>
      if sock.readyState = ReadyState.connecting then
        if rt.wired then onopen (rt.setReadyState .open) else rt.setReadyState .open
      else rt
  | .failed, rt =>
    match rt.channel.ws with
    | none => rt
    | some _ => if rt.wired then onerror rt else rt
  | .closed, rt =>
    match rt.channel.ws with
    | none => rt
    | some sock =>
      if sock.readyState = ReadyState.closed then rt
      else if rt.wired then onclose (rt.setReadyState .closed) else rt.setReadyState .closed
  | .timerFired raised, rt =>
    match rt.timers with
    | [] => rt
    | _ :: rest =>
      match connect raised { rt with timers := rest } with
      | .ok rt1 => rt1
      | .error _ => { rt with timers := rest }

/-- The channel after a sequence of events, in order. -/
def runChannel : List ChannelEvent → Runtime → Runtime
  | [], rt => rt
  | ev :: rest, rt => runChannel rest (ev.step rt)

/-- The channel as `new BuilderWebSocket(url)` leaves it. -/
def startChannel (url : String) (raised : Option JSError) : Runtime :=
  match newBuilderWebSocket url raised with
  | .ok rt => rt
  | .error _ => { channel := ⟨url, none⟩, wired := false, timers := [], console := [] }

/-! ## `APIEventHandler`: the poller -/

/-- The period `pollBuildStatus()` passes to `setInterval`, in milliseconds. -/
def pollInterval : Nat := 1000

/-- The callback `pollBuildStatus()` hands to `setInterval` (lines 137 to
147), run at one tick.  `buildElement` is `style.display` of the element
`buildProgressSection`, `none` when there is no such element, and `requests`
lists the endpoints requested through the `BuilderAPI` so far.  The guarded
block holds the comment `// Update progress` and no statement. -/
def pollTick (buildElement : Option String) (requests : List String) : List String :=
  match buildElement with
  | none => requests
  | some display => if display ≠ "none" then requests else requests

/-! ## `BuilderAPI`: `request` -/

/-- A value raised or rejected with: the `name` and `message` of the error
object. -/
structure ErrorValue where
  name : String
  message : String
  deriving DecidableEq, Repr

/-- A `Response` as `request` uses it: the flag `ok`, `statusText`, and the
outcome of `response.json()`, the decoded body or the error it rejects
with. -/
structure Response where
  ok : Bool
  statusText : String
  json : Except ErrorValue JSValue

/-- One call `fetch(url, init)`: the address and the properties of the
`init` object. -/
structure FetchCall where
  url : String
  init : List (String × JSValue)

/-- The properties a spread `...source` copies into an object literal: the
own properties of an object, the indexed elements of an array, the indexed
characters of a string (of the Basic Multilingual Plane, where a character is
one code unit), nothing for any other value. -/
def spreadFields : JSValue → List (String × JSValue)
  | .obj fields => fields
  | .arr items => (List.range items.length).zip items |>.map fun (i, v) => (toString i, v)
  | .str s =>
    (List.range s.length).zip s.toList |>.map fun (i, c) => (toString i, .str (String.singleton c))
  | _ => []

/-- The object literal `request` passes to `fetch` (lines 11 to 17):
`{ headers: { 'Content-Type': 'application/json', ...options.headers },
...options }`.  A property written later in a literal replaces an earlier one
of the same name; as reading a key takes the first entry, the later
properties stand first in the list. -/
def requestInit (options : List (String × JSValue)) : List (String × JSValue) :=
  options ++
    [("headers", .obj (spreadFields ((JSValue.lookup "headers" options).getD .undefined) ++
      [("Content-Type", .str "application/json")]))]

/-- The call `request` makes: `fetch` with the address
`this.baseUrl` followed by `endpoint` and the `init` object. -/
def requestCall (baseUrl endpoint : String) (options : List (String × JSValue)) : FetchCall :=
  ⟨baseUrl ++ endpoint, requestInit options⟩

/-- The `try` block of `request` (lines 11 to 23): the calls of `fetch` it
makes and the value it returns or the error it raises.  `fetch` is the
built-in, taken as the outcome it has for a call: the response it resolves
with or the error it rejects with.  `options` is the object the caller
passes, `{}` by default. -/
def requestTry (fetch : FetchCall → Except ErrorValue Response) (baseUrl endpoint : String)
    (options : List (String × JSValue)) : List FetchCall × Except ErrorValue JSValue :=
  let call := requestCall baseUrl endpoint options
  match fetch call with
  | .error e => ([call], .error e)
  | .ok response =>
    if !response.ok then
      ([call], .error ⟨"Error", "API error: " ++ response.statusText⟩)
    else
      match response.json with
      | .error e => ([call], .error e)
      | .ok body => ([call], .ok body)

/-- One run of `request`: the calls of `fetch` made, the errors written to
the console, and the result: the value returned or the error raised to the
caller. -/
structure RequestRun where
  fetched : List FetchCall
  logged : List ErrorValue
  result : Except ErrorValue JSValue

/-- The method `request(endpoint, options)`: the `try` block and its `catch`,
which logs the error and raises it again. -/
def request (fetch : FetchCall → Except ErrorValue Response) (baseUrl endpoint : String)
    (options : List (String × JSValue)) : RequestRun :=
  match requestTry fetch baseUrl endpoint options with
  | (calls, .ok body) => ⟨calls, [], .ok body⟩
  | (calls, .error e) => ⟨calls, [e], .error e⟩

/-- The method `request(endpoint, options)` for any value passed as
`options`.  For `undefined` the default `{}` of line 9 takes its place.  The
literal of lines 11 to 17 then reads `options.headers`: for `null` the read
raises a `TypeError`, inside the `try` block and before `fetch` is called, so
that the `catch` logs the error and raises it again; for every other value
the literal is built from the properties a spread copies.  `typeErrorText` is
the message the engine gives the `TypeError`. -/
def requestAny (typeErrorText : String) (fetch : FetchCall → Except ErrorValue Response)
    (baseUrl endpoint : String) (options : JSValue) : RequestRun :=
  let given : JSValue :=
    match options with
    | .undefined => .obj []
    | v => v
  match getProp given "headers" with
  | .error _ => ⟨[], [⟨"TypeError", typeErrorText⟩], .error ⟨"TypeError", typeErrorText⟩⟩
  | .ok _ => request fetch baseUrl endpoint (spreadFields given)

/-- A `fetch` that rejects every call: the connection is lost before a
response arrives. -/
def networkDown : FetchCall → Except ErrorValue Response :=
  fun _ => .error ⟨"TypeError", "Failed to fetch"⟩

/-- A `fetch` that resolves with status 200 and then loses the connection
while the body is read, so that `response.json()` rejects. -/
def bodyLost : FetchCall → Except ErrorValue Response :=
  fun _ => .ok ⟨true, "OK", .error ⟨"TypeError", "Failed to fetch"⟩⟩

/-! ## `script.js`: text -/

/-- The code points of `WhiteSpace` and `LineTerminator`, which
`String.prototype.trim` strips and `parseInt` skips. -/
def isJsWhiteSpace (c : Char) : Bool :=
  let n := c.toNat
  n == 0x09 || n == 0x0A || n == 0x0B || n == 0x0C || n == 0x0D || n == 0x20 ||
  n == 0xA0 || n == 0x1680 || (0x2000 ≤ n && n ≤ 0x200A) || n == 0x2028 || n == 0x2029 ||
  n == 0x202F || n == 0x205F || n == 0x3000 || n == 0xFEFF

/-- The method `String.prototype.trim`. -/
def jsTrim (s : String) : String :=
  String.mk ((s.toList.dropWhile isJsWhiteSpace).reverse.dropWhile isJsWhiteSpace).reverse

/-- A character of the class `[a-zA-Z0-9_-]`. -/
def isNameChar (c : Char) : Bool :=
  let n := c.toNat
  (97 ≤ n && n ≤ 122) || (65 ≤ n && n ≤ 90) || (48 ≤ n && n ≤ 57) || n == 95 || n == 45

/-- The test `/^[a-zA-Z0-9_-]+$/.test(name)`: the whole text is one or more
characters of the class. -/
def testNamePattern (name : String) : Bool :=
  !name.toList.isEmpty && name.toList.all isNameChar

/-- A project name as the validation messages describe it: not empty, and
made of ASCII letters, digits, hyphens and underscores only. -/
def ValidName (name : String) : Prop :=
  name ≠ "" ∧ ∀ c ∈ name.toList, c.isAlphanum = true ∨ c = '-' ∨ c = '_'

/-- The method `String.prototype.toUpperCase` on ASCII text (the letters `a`
to `z` are raised, every other ASCII character is kept). -/
def jsToUpperCase (s : String) : String :=
  String.mk (s.toList.map Char.toUpper)

/-- The method `String.prototype.slice(first, last)` for positions
`0 ≤ first ≤ last`, on text of the Basic Multilingual Plane (where a
character is one code unit). -/
def jsSlice (s : String) (first last : Nat) : List Char :=
  (s.toList.drop first).take (last - first)

/-- The value of a digit in `parseInt`: `0` to `9`, then the letters of
either case from 10 on. -/
def digitValue (c : Char) : Option Nat :=
  let n := c.toNat
  if 48 ≤ n && n ≤ 57 then some (n - 48)
  else if 97 ≤ n && n ≤ 122 then some (n - 87)
  else if 65 ≤ n && n ≤ 90 then some (n - 55)
  else none

/-- The digits of radix 16 at the start of a text, as values. -/
def hexPrefix : List Char → List Nat
  | [] => []
  | c :: rest =>
    match digitValue c with
    | some v => if v < 16 then v :: hexPrefix rest else []
    | none => []

/-- The call `parseInt(text, 16)`, `none` standing for `NaN`: leading white
space is skipped, then a sign and a prefix `0x` or `0X` are taken off, and
the longest run of hexadecimal digits that follows is the number. -/
def parseInt16 (text : List Char) : Option Int :=
  let s1 := text.dropWhile isJsWhiteSpace
  let negative := s1.head? == some '-'
  let s2 := match s1 with
    | '-' :: rest => rest
    | '+' :: rest => rest
    | rest => rest
  let s3 := match s2 with
    | '0' :: 'x' :: rest => rest
    | '0' :: 'X' :: rest => rest
    | rest => rest
  match hexPrefix s3 with
  | [] => none
  | digits =>
    let magnitude : Nat := digits.foldl (fun acc v => 16 * acc + v) 0
    some (if negative then -(magnitude : Int) else (magnitude : Int))

/-- The text of a number in a template literal: `NaN`, or the decimal
numeral of an integer. -/
def numberText : Option Int → String
  | none => "NaN"
  | some n => toString n

/-! ## `script.js`: the state of the page -/

/-- An entry of `defaultColors` or `customColors`. -/
structure Color where
  name : String
  hex : String
  rgb : String
  deriving DecidableEq, Repr

/-- The inputs of the create page, by the `value` of each element, and
`style.display` of the element `folderScanResult`. -/
structure CreateForm where
  projectName : String
  projectAuthor : String
  projectVersion : String
  projectDescription : String
  folderPath : String
  folderScanResult : String

/-- The inputs of the existing-project page, by the `value` of each element,
and the button that was clicked (`event.target`): its text and whether it is
disabled. -/
structure ExistingForm where
  existingProjectName : String
  existingProjectAuthor : String
  existingProjectVersion : String
  existingProjectDescription : String
  buttonText : String
  buttonDisabled : Bool

/-- The inputs of the colour panel: the `value` of `colorPicker` and of
`colorNameInput`, and the text of `colorHexDisplay`. -/
structure ColorPanel where
  colorPicker : String
  colorNameInput : String
  colorHexDisplay : String

/-- The state `script.js` works on: its global variables (`currentPage`,
`selectedTemplate`, `projects`, `builtCount`, `customColors`,
`importedFolder`, `existingImportedFolder`), the two items it keeps in
`localStorage` (each by the value whose JSON text was stored last, `none`
when nothing was stored), the forms, the texts of `pageTitle`, `projectCount`
and `builtCount`, the alerts shown and the calls of `fetch` made, oldest
first.  The elements the script looks up by id are those of the
application's page and are taken to exist; the markup the script writes to
`innerHTML` is not part of the state. -/
structure App where
  currentPage : String
  selectedTemplate : String
  projects : List JSValue
  builtCount : Int
  customColors : List Color
  importedFolder : JSValue
  existingImportedFolder : JSValue
  storedProjects : Option (List JSValue)
  storedColors : Option (List Color)
  createForm : CreateForm
  existingForm : ExistingForm
  colorPanel : ColorPanel
  pageTitle : String
  projectCountText : String
  builtCountText : String
  alerts : List String
  fetched : List FetchCall

/-- The result of running a function of `script.js`: the state it leaves and
the error it raised, if any. -/
structure AppRun where
  app : App
  error : Option ErrorValue

/-- The call `goToPage('projects')`: the page is shown, its title set, and
`loadProjects()` asks the backend for the projects.  (The answer is handled
later, in a callback of its own.) -/
def goToProjectsPage (app : App) : App :=
  { app with
    currentPage := "projects"
    pageTitle := "My Projects"
    fetched := app.fetched ++ [⟨"/api/projects", []⟩] }

/-- The function `updateStats()`. -/
def updateStats (app : App) : App :=
  { app with
    projectCountText := toString app.projects.length
    builtCountText := toString app.builtCount }

/-- The project object `createProject` builds (lines 401 to 413).  `id` is
what `generateId()` returns and `created` what `new Date().toISOString()`
returns. -/
def newProject (id created name author version description : String) (app : App) : JSValue :=
  .obj [("id", .str id), ("name", .str name),
    ("author", .str (if author = "" then "Unknown" else author)),
    ("version", .str version), ("description", .str description),
    ("template", .str app.selectedTemplate), ("created", .str created),
    ("path", .str ("./" ++ name)), ("built", .bool false),
    ("importedFolder", if app.importedFolder.truthy then app.importedFolder else .null)]

/-- The function `createProject()`.  `setItemRaises` is the outcome of
`localStorage.setItem` in `saveProjects()`: the error it raises (a full or
disabled storage), or `none`. -/
def createProject (id created : String) (setItemRaises : Option ErrorValue) (app : App) :
    AppRun :=
  let name := jsTrim app.createForm.projectName
  let author := jsTrim app.createForm.projectAuthor
  let version := app.createForm.projectVersion
  let description := jsTrim app.createForm.projectDescription
  if name = "" then
    ⟨{ app with alerts := app.alerts ++ ["Please enter a project name"] }, none⟩
  else if !testNamePattern name then
    ⟨{ app with alerts := app.alerts ++
      ["Project name must contain only alphanumeric characters, hyphens, and underscores"] },
      none⟩
  else
    let project := newProject id created name author version description app
    let app1 : App := { app with projects := app.projects ++ [project] }
    match setItemRaises with
    | some e => ⟨app1, some e⟩
    | none =>
      let app2 : App :=
        { app1 with
          storedProjects := some app1.projects
          createForm := ⟨"", "", "1.0.0", "", "", "none"⟩
          importedFolder := .null
          alerts := app1.alerts ++ ["✓ Project \"" ++ name ++
            "\" created successfully!\n\nYou can now edit the files in the project folder."] }
      ⟨updateStats (goToProjectsPage app2), none⟩

/-- The read `value.key` of a value that is not `null` or `undefined`, so
that the read cannot raise. -/
def readField (value : JSValue) (key : String) : JSValue :=
  match getProp value key with
  | .ok v => v
  | .error _ => .undefined

/-- The body `createExistingProject` passes to `JSON.stringify` (lines 465
to 471). -/
def existingProjectPayload (name author version description : String) (app : App) : JSValue :=
  .obj [("name", .str name),
    ("folderPath", readField app.existingImportedFolder "folderPath"),
    ("author", .str (if author = "" then "Unknown" else author)),
    ("version", .str version), ("description", .str description)]

/-- The call of `fetch` in `createExistingProject` (lines 460 to 472).
`stringify` is the built-in `JSON.stringify`, as in `send`. -/
def createProjectCall (stringify : JSValue → Option String) (payload : JSValue) : FetchCall :=
  ⟨"/api/create-project",
    [("method", .str "POST"),
      ("headers", .obj [("Content-Type", .str "application/json")]),
      ("body", match stringify payload with
        | some text => .str text
        | none => .undefined)]⟩

/-- The function `createExistingProject()`, run as the click handler of its
button, up to the call of `fetch` (lines 433 to 472).  What the chained
callbacks do when the response arrives happens later, in runs of their
own. -/
def createExistingProject (stringify : JSValue → Option String) (app : App) : App :=
  let name := jsTrim app.existingForm.existingProjectName
  let author := jsTrim app.existingForm.existingProjectAuthor
  let version := app.existingForm.existingProjectVersion
  let description := jsTrim app.existingForm.existingProjectDescription
  if !app.existingImportedFolder.truthy then
    { app with alerts := app.alerts ++ ["Please import a project folder first"] }
  else if name = "" then
    { app with alerts := app.alerts ++ ["Please enter a project name"] }
  else if !testNamePattern name then
    { app with alerts := app.alerts ++
      ["Project name must contain only alphanumeric characters, hyphens, and underscores"] }
  else
    { app with
      existingForm :=
        { app.existingForm with buttonText := "Creating project...", buttonDisabled := true }
      fetched := app.fetched ++
        [createProjectCall stringify
          (existingProjectPayload name author version description app)] }

/-- An application state for the examples: one project in the list, nothing
stored, no folder imported, and a create form filled in with the name
` my-app_1 ` (blanks around it). -/
def sampleApp : App :=
  { currentPage := "create"
    selectedTemplate := "blank"
    projects := [.obj [("id", .str "proj_abc"), ("name", .str "first")]]
    builtCount := 0
    customColors := []
    importedFolder := .null
    existingImportedFolder := .null
    storedProjects := none
    storedColors := none
    createForm := ⟨" my-app_1 ", " Ada ", "1.0.0", "", "", "none"⟩
    existingForm := ⟨"site", "", "1.0.0", "", "Create Project", false⟩
    colorPanel := ⟨"#1a2B3c", " Sea ", "#1A2B3C"⟩
    pageTitle := "Create"
    projectCountText := "1"
    builtCountText := "0"
    alerts := []
    fetched := [] }

/-- The sample state after the folder `C:/sites/site` has been imported on
the existing-project page and its form filled in: the name ` my-site_2 `
(blanks around it), a blank author, the version `2.1.0` and the description
` A site `. -/
def sampleAppWithFolder : App :=
  { sampleApp with
    existingImportedFolder :=
      .obj [("success", .bool true), ("folderPath", .str "C:/sites/site")]
    existingForm := ⟨" my-site_2 ", " ", "2.1.0", " A site ", "Create Project", false⟩ }

/-- A rendering of a flat object used in the examples where a text of the
body is needed: each property as `key=value;`, the value by `ToString`.  It
tells bodies apart by every property, as `JSON.stringify` does. -/
def fieldLines : JSValue → Option String
  | .obj fields =>
    some (String.join (fields.map fun (k, v) => k ++ "=" ++ (jsToString v).getD "" ++ ";"))
  | _ => none

/-- The function `addCustomColor()`.  `setItemRaises` is the outcome of
`localStorage.setItem` in `saveColors()`, as in `createProject`; the call
`loadColors()` before it rewrites the markup of the colour grid and changes
nothing of the state. -/
def addCustomColor (setItemRaises : Option ErrorValue) (app : App) : AppRun :=
  let hexCode := jsToUpperCase app.colorPanel.colorPicker
  let trimmed := jsTrim app.colorPanel.colorNameInput
  let colorName := if trimmed = "" then "Custom Color" else trimmed
  let r := parseInt16 (jsSlice hexCode 1 3)
  let g := parseInt16 (jsSlice hexCode 3 5)
  let b := parseInt16 (jsSlice hexCode 5 7)
  let rgb := "rgb(" ++ numberText r ++ ", " ++ numberText g ++ ", " ++ numberText b ++ ")"
  let app1 : App :=
    { app with
      customColors := app.customColors ++ [⟨colorName, hexCode, rgb⟩]
      colorPanel := ⟨"#667eea", "", "#667EEA"⟩ }
  match setItemRaises with
  | some e => ⟨app1, some e⟩
  | none => ⟨{ app1 with storedColors := some app1.customColors }, none⟩

/-- The hexadecimal digit of value `v`, written in lower or in upper case. -/
def hexChar (v : Fin 16) (upper : Bool) : Char :=
  (if upper then "0123456789ABCDEF" else "0123456789abcdef").toList.getD v.val '0'

/-- The text `#` followed by six hexadecimal digits. -/
def hexColorText (d1 d2 d3 d4 d5 d6 : Char) : String :=
  String.mk ['#', d1, d2, d3, d4, d5, d6]

/-! ## `BuilderWebSocket`: counting the connection attempts -/

/-- The number of calls of `connect()` made while a sequence of events is
handled: one for each timer that fires. -/
def connectCalls : List ChannelEvent → Runtime → Nat
  | [], _ => 0
  | ev :: rest, rt =>
    (match ev, rt.timers with
      | .timerFired _, _ :: _ => 1
      | _, _ => 0) + connectCalls rest (ev.step rt)

/-! ## `script.js`: deleting a colour -/

/-- The constant `defaultColors` (lines 11 to 25). -/
def defaultColors : List Color :=
  [⟨"ROJO", "#DE1A1A", "rgb(222, 26, 26)"⟩,
   ⟨"GHOST WHITE", "#E8EBF7", "rgb(232, 235, 247)"⟩,
   ⟨"Primary", "#667eea", "rgb(102, 126, 234)"⟩,
   ⟨"Secondary", "#764ba2", "rgb(118, 75, 162)"⟩,
   ⟨"Accent", "#f5576c", "rgb(245, 87, 108)"⟩,
   ⟨"Success", "#51cf66", "rgb(81, 207, 102)"⟩,
   ⟨"Warning", "#ffd700", "rgb(255, 215, 0)"⟩,
   ⟨"Danger", "#ff6b6b", "rgb(255, 107, 107)"⟩,
   ⟨"Dark", "#1a1a2e", "rgb(26, 26, 46)"⟩,
   ⟨"Light", "#f8f9fa", "rgb(248, 249, 250)"⟩,
   ⟨"Gray", "#6c757d", "rgb(108, 117, 125)"⟩,
   ⟨"Border", "#e0e0e0", "rgb(224, 224, 224)"⟩]

/-- The call `colors.filter((_, i) => i !== k)`, the elements being numbered
from `start`. -/
def keepOtherIndices (k : Int) : Nat → List Color → List Color
  | _, [] => []
  | start, c :: rest =>
    if (start : Int) ≠ k then c :: keepOtherIndices k (start + 1) rest
    else keepOtherIndices k (start + 1) rest

/-- The function `deleteColor(index)`.  `confirmed` is the answer to the
`confirm` dialog, `typeErrorText` the message the engine gives the
`TypeError` raised when `index` is past the last colour (there is then no
`colorToDelete` to read the name of), and `setItemRaises` the outcome of
`localStorage.setItem` in `saveColors()`.  The call `loadColors()` rewrites
the markup of the colour grid and changes nothing of the state. -/
def deleteColor (typeErrorText : String) (confirmed : Bool)
    (setItemRaises : Option ErrorValue) (index : Nat) (app : App) : AppRun :=
  match (defaultColors ++ app.customColors)[index]? with
  | none => ⟨app, some ⟨"TypeError", typeErrorText⟩⟩
  | some _ =>
    if confirmed then
      let app1 : App :=
        { app with
          customColors :=
            keepOtherIndices ((index : Int) - (defaultColors.length : Int)) 0 app.customColors }
      match setItemRaises with
      | some e => ⟨app1, some e⟩
      | none => ⟨{ app1 with storedColors := some app1.customColors }, none⟩
    else ⟨app, none⟩

/-- The sample state with three custom colours. -/
def sampleAppWithColors : App :=
  { sampleApp with
    customColors :=
      [⟨"Sea", "#1A2B3C", "rgb(26, 43, 60)"⟩, ⟨"Sand", "#C2B280", "rgb(194, 178, 128)"⟩,
       ⟨"Moss", "#8A9A5B", "rgb(138, 154, 91)"⟩] }

/-- The socket the channel holds, if it holds one, is closed. -/
def Runtime.SocketClosed (rt : Runtime) : Prop :=
  ∀ sock, rt.channel.ws = some sock → sock.readyState = ReadyState.closed

/-- Nothing is pending: no timer, and no socket that can still close. -/
def Runtime.Quiet (rt : Runtime) : Prop :=
  rt.timers = [] ∧ rt.SocketClosed

/-- At most one timer is pending, and one is pending only while the held
socket is closed. -/
def Runtime.Settled (rt : Runtime) : Prop :=
  rt.timers = [] ∨ (rt.timers = [reconnectDelay] ∧ rt.SocketClosed)

/-! ## `script.js`: the build -/

/-- The build page: the `value` of the select `buildProject` (the id of the
selected project), `style.width` of `progressFill`, the texts of
`buildStatus` and `buildLog`, the pending calls
`setTimeout(() => alert(...), delay)` of `executeBuild` (each by its delay
and the response its alert will show), and the errors written to the
console. -/
structure BuildPanel where
  buildProject : String
  progressWidth : String
  buildStatus : String
  buildLog : String
  pendingAlerts : List (Nat × JSValue)
  console : List ErrorValue

/-- The state `executeBuild` and its callbacks work on. -/
structure BuildState where
  app : App
  panel : BuildPanel

/-- The assignment `object.key = v` on the properties of an object: the
property is replaced where it stands, or added. -/
def setField (key : String) (v : JSValue) : List (String × JSValue) → List (String × JSValue)
  | [] => [(key, v)]
  | (k, x) :: rest => if k = key then (k, v) :: rest else (k, x) :: setField key v rest

/-- The assignment `project.built = true`. -/
def markBuilt : JSValue → JSValue
  | .obj fields => .obj (setField "built" (.bool true) fields)
  | v => v

/-- The comparison `value === text` with a string. -/
def isString (value : JSValue) (text : String) : Bool :=
  match value with
  | .str s => s = text
  | _ => false

/-- The call `projects.find(p => p.id === projectId)`, by the position of
the project found: the first entry whose `id` is the string `projectId`.
Reading `id` of an entry that is `null` or `undefined` raises. -/
def findProject (projectId : String) : List JSValue → Except JSError (Option Nat)
  | [] => .ok none
  | p :: rest =>
    match getProp p "id" with
    | .error e => .error e
    | .ok v =>
      if isString v projectId then .ok (some 0)
      else
        match findProject projectId rest with
        | .ok (some i) => .ok (some (i + 1))
        | other => other

/-- The text of `data.key` inside a template literal, `none` when reading or
converting it raises. -/
def fieldText (data : JSValue) (key : String) : Option String :=
  match getProp data key with
  | .ok v => jsToString v
  | .error _ => none

/-- The call of `fetch` in `executeBuild` (lines 582 to 588). -/
def buildProjectCall (stringify : JSValue → Option String) (buildData : JSValue) : FetchCall :=
  ⟨"/api/build-project",
    [("method", .str "POST"),
      ("headers", .obj [("Content-Type", .str "application/json")]),
      ("body", match stringify buildData with
        | some text => .str text
        | none => .undefined)]⟩

/-- The function `executeBuild(buildData)` itself: it calls `fetch` and
chains the callbacks, which run when the request settles. -/
def executeBuild (stringify : JSValue → Option String) (buildData : JSValue)
    (st : BuildState) : BuildState :=
  { st with app := { st.app with fetched := st.app.fetched ++ [buildProjectCall stringify buildData] } }

/-- The callback of `.catch` (lines 616 to 621). -/
def onBuildFailure (error : ErrorValue) (st : BuildState) : BuildState :=
  { app := { st.app with alerts := st.app.alerts ++ ["Build error: " ++ error.message] }
    panel :=
      { st.panel with
        console := st.panel.console ++ [error]
        buildStatus := "❌ Build failed!"
        buildLog := st.panel.buildLog ++ ("\n❌ Error: " ++ error.message) } }

/-- The lines 598 to 605 for the project found at position `i`:
`project.built = true`, `builtCount++`, `saveProjects()`, `updateStats()`. -/
def markProjectBuilt (setItemRaises : Option ErrorValue) (i : Nat) (app : App) :
    App × Option ErrorValue :=
  let app1 : App :=
    { app with
      projects :=
        match app.projects[i]? with
        | some p => app.projects.set i (markBuilt p)
        | none => app.projects
      builtCount := app.builtCount + 1 }
  match setItemRaises with
  | some e => (app1, some e)
  | none => (updateStats { app1 with storedProjects := some app1.projects }, none)

/-- The callback `data => ...` of the second `.then` (lines 591 to 615): the
state it leaves and the error it raises, if any.  `typeErrorText` is the
message the engine gives a `TypeError`, `setItemRaises` the outcome of
`localStorage.setItem` in `saveProjects()`. -/
def onBuildResponse (typeErrorText : String) (setItemRaises : Option ErrorValue)
    (data : JSValue) (st : BuildState) : BuildState × Option ErrorValue :=
  let typeError : ErrorValue := ⟨"TypeError", typeErrorText⟩
  let st1 : BuildState := { st with panel := { st.panel with progressWidth := "100%" } }
  match getProp data "success" with
  | .error _ => (st1, some typeError)
  | .ok success =>
    if success.truthy then
      let st2 : BuildState :=
        { st1 with panel := { st1.panel with buildStatus := "✨ Build complete!" } }
      match fieldText data "exePath" with
      | none => (st2, some typeError)
      | some exePath =>
        let st3 : BuildState :=
          { st2 with panel := { st2.panel with
              buildLog := st2.panel.buildLog ++
                ("✅ Build successful!\n\nEXE Location: " ++ exePath ++
                  "\n\nYou can now run this file!") } }
        let schedule (s : BuildState) : BuildState :=
          { s with panel := { s.panel with
              pendingAlerts := s.panel.pendingAlerts ++ [(500, data)] } }
        match findProject st3.panel.buildProject st3.app.projects with
        | .error _ => (st3, some typeError)
        | .ok none => (schedule st3, none)
        | .ok (some i) =>
          match markProjectBuilt setItemRaises i st3.app with
          | (app4, some e) => ({ st3 with app := app4 }, some e)
          | (app4, none) => (schedule { st3 with app := app4 }, none)
    else
      let st2 : BuildState :=
        { st1 with panel := { st1.panel with buildStatus := "❌ Build failed!" } }
      match fieldText data "error" with
      | none => (st2, some typeError)
      | some error =>
        ({ app := { st2.app with alerts := st2.app.alerts ++ ["Build error: " ++ error] }
           panel := { st2.panel with
             buildLog := st2.panel.buildLog ++ ("\n❌ Error: " ++ error) } }, none)

/-- The callbacks `executeBuild` chains to `fetch`, run when the request
settles.  `outcome` is what `fetch(...).then(response => response.json())`
settles with: the decoded response, or the error the request or the decoding
failed with.  An error raised by the callback of the response goes to the
callback of `.catch`, like a failed request. -/
def buildSettled (typeErrorText : String) (setItemRaises : Option ErrorValue)
    (outcome : Except ErrorValue JSValue) (st : BuildState) : BuildState :=
  match outcome with
  | .error e => onBuildFailure e st
  | .ok data =>
    match onBuildResponse typeErrorText setItemRaises data st with
    | (st1, none) => st1
    | (st1, some e) => onBuildFailure e st1

/-- A build page on the sample state: two projects, the second selected, a
build of it started. -/
def sampleBuild : BuildState :=
  { app :=
      { sampleApp with
        projects :=
          [.obj [("id", .str "proj_abc"), ("name", .str "first"), ("built", .bool false)],
           .obj [("id", .str "proj_def"), ("name", .str "second")]] }
    panel := ⟨"proj_def", "0%", "Initializing build...", "", [], []⟩ }

/-! ## Sample inputs -/

/-- A page on which a build has just started, as `executeBuild` of
`script.js` sets it up (lines 550 to 553): empty bar, initial status, empty
log, no alert yet. -/
def startPage : Page :=
  { progressFill := some ⟨"0%", "", 0⟩
    buildStatus := some ⟨"", "Initializing build...", 0⟩
    buildLog := some ⟨"", "", 0⟩
    alerts := []
    scrollHeight := fun text => text.length }

/-- The start page later in the build: the log holds the line `make all`. -/
def loggedPage : Page :=
  { startPage with buildLog := some ⟨"", "make all\n", 9⟩ }

/-- The message `{type: 'build-progress', progress, message}`, for a
progress below 1000. -/
def progressMessage (progress : Fin 1000) (message : String) : JSValue :=
  .obj [("type", .str "build-progress"),
    ("progress", .num (SafeInt.ofNat progress.val (by have := progress.isLt; omega))),
    ("message", .str message)]

/-- The message `{type: 'build-complete', output_path}`. -/
def completeMessage (outputPath : String) : JSValue :=
  .obj [("type", .str "build-complete"), ("output_path", .str outputPath)]

/-- The message `{type: 'build-error', error}`. -/
def errorMessage (error : String) : JSValue :=
  .obj [("type", .str "build-error"), ("error", .str error)]

/-- The message `{type: 'build-progress', correlationId, progress, message}`,
for a progress below 1000. -/
def taggedProgress (correlationId : String) (progress : Fin 1000) (message : String) :
    JSValue :=
  .obj [("type", .str "build-progress"), ("correlationId", .str correlationId),
    ("progress", .num (SafeInt.ofNat progress.val (by have := progress.isLt; omega))),
    ("message", .str message)]

/-- The message `{type: 'build-progress', progress, message, log}`. -/
def logMessage (progress : JSValue) (message log : String) : JSValue :=
  .obj [("type", .str "build-progress"), ("progress", progress),
    ("message", .str message), ("log", .str log)]

/-! ## Frame lemmas: what each statement leaves alone -/

theorem setProgressWidth_frame (data : JSValue) (pg : Page) :
    (setProgressWidth data pg).page.buildStatus = pg.buildStatus ∧
    (setProgressWidth data pg).page.buildLog = pg.buildLog ∧
    (setProgressWidth data pg).page.alerts = pg.alerts ∧
    (setProgressWidth data pg).page.scrollHeight = pg.scrollHeight := by
  unfold setProgressWidth
  split
  · simp
  · split
    · simp
    · split <;> simp

theorem setStatusText_frame (data : JSValue) (pg : Page) :
    (setStatusText data pg).page.progressFill = pg.progressFill ∧
    (setStatusText data pg).page.buildLog = pg.buildLog ∧
    (setStatusText data pg).page.alerts = pg.alerts ∧
    (setStatusText data pg).page.scrollHeight = pg.scrollHeight := by
  unfold setStatusText
  split
  · simp
  · split
    · simp
    · split <;> simp

theorem appendLog_frame (data : JSValue) (pg : Page) :
    (appendLog data pg).page.progressFill = pg.progressFill ∧
    (appendLog data pg).page.buildStatus = pg.buildStatus ∧
    (appendLog data pg).page.alerts = pg.alerts ∧
    (appendLog data pg).page.scrollHeight = pg.scrollHeight := by
  unfold appendLog
  split
  · simp
  · split
    · simp
    · split
      · split <;> simp
      · simp

theorem alertField_frame (pre key : String) (data : JSValue) (pg : Page) :
    (alertField pre key data pg).page.progressFill = pg.progressFill ∧
    (alertField pre key data pg).page.buildStatus = pg.buildStatus ∧
    (alertField pre key data pg).page.buildLog = pg.buildLog ∧
    (alertField pre key data pg).page.scrollHeight = pg.scrollHeight := by
  unfold alertField
  split
  · simp
  · split <;> simp

/-- The progress bar after `updateBuildProgress` is the one line 208 leaves. -/
theorem updateBuildProgress_progressFill (data : JSValue) (pg : Page) :
    (updateBuildProgress data pg).page.progressFill =
      (setProgressWidth data pg).page.progressFill := by
  unfold updateBuildProgress Outcome.andThen
  split
  · rfl
  · beta_reduce
    split
    · exact (setStatusText_frame data _).1
    · rw [(appendLog_frame data _).1, (setStatusText_frame data _).1]

/-- A message whose `type` is `build-progress` is handled by
`updateBuildProgress`. -/
theorem handleMessage_progress (data : JSValue) (pg : Page)
    (htype : getProp data "type" = .ok (.str "build-progress")) :
    handleMessage data pg = updateBuildProgress data pg := by
  simp [handleMessage, htype, selectHandler, Handler.run]

theorem handleMessage_complete (data : JSValue) (pg : Page)
    (htype : getProp data "type" = .ok (.str "build-complete")) :
    handleMessage data pg = handleBuildComplete data pg := by
  simp [handleMessage, htype, selectHandler, Handler.run]

theorem handleMessage_error (data : JSValue) (pg : Page)
    (htype : getProp data "type" = .ok (.str "build-error")) :
    handleMessage data pg = handleBuildError data pg := by
  simp [handleMessage, htype, selectHandler, Handler.run]

/-- Line 208 on a numeric progress value. -/
theorem setProgressWidth_num (data : JSValue) (pg : Page) (el : Element) (n : SafeInt)
    (hfill : pg.progressFill = some el)
    (hprog : getProp data "progress" = .ok (.num n)) :
    (setProgressWidth data pg).page.progressFill =
      some { el with width := toString n.val ++ "%" } := by
  simp [setProgressWidth, hfill, hprog, jsToString]

/-! ## Sequences of messages -/

theorem handleAll_append (xs ys : List JSValue) (pg : Page) :
    handleAll (xs ++ ys) pg = handleAll ys (handleAll xs pg) := by
  induction xs generalizing pg with
  | nil => rfl
  | cons x xs ih => simp [handleAll, ih]

/-- No handler removes or replaces the progress bar element: only line 208
writes to it, and it writes `style.width` alone. -/
theorem handleMessage_progressFill_isSome (data : JSValue) (pg : Page)
    (h : pg.progressFill.isSome) : (handleMessage data pg).page.progressFill.isSome := by
  unfold handleMessage
  split
  · exact h
  · split
    · rename_i hd _
      cases hd
      · simp only [Handler.run]
        rw [updateBuildProgress_progressFill]
        unfold setProgressWidth
        split
        · exact h
        · split
          · exact h
          · split <;> simp_all
      · simp only [Handler.run, handleBuildComplete]
        rw [(alertField_frame _ _ data pg).1]; exact h
      · simp only [Handler.run, handleBuildError]
        rw [(alertField_frame _ _ data pg).1]; exact h
    · exact h

theorem handleAll_progressFill_isSome (msgs : List JSValue) (pg : Page)
    (h : pg.progressFill.isSome) : (handleAll msgs pg).progressFill.isSome := by
  induction msgs generalizing pg with
  | nil => exact h
  | cons x xs ih => exact ih _ (handleMessage_progressFill_isSome x pg h)

/-! ## C1: progress is the last value written -/

/-- C1, the claim as stated fails: after the messages with progress 10 and 5
the bar shows 5, below the 10 it showed before; the sequence 10, 5, 40 ends at
40 but visits 5. -/
theorem progress_decreases_10_5_40 :
    shownProgress (handleAll [progressMessage 10 "Compiling"] startPage) = some 10 ∧
    shownProgress
      (handleAll [progressMessage 10 "Compiling", progressMessage 5 "Copying"] startPage)
      = some 5 ∧
    shownProgress
      (handleAll [progressMessage 10 "Compiling", progressMessage 5 "Copying",
        progressMessage 40 "Linking"] startPage) = some 40 := by
  decide

/-- C1, amended: the progress bar shows the value of the last `build-progress`
message handled, whatever it showed before.  After any sequence of messages
followed by a `build-progress` message whose progress is the integer `n`,
from 0 to `2^53`, `style.width` of the bar is the numeral of `n` followed by
`%`, also when a larger value was shown earlier. -/
theorem progress_is_last_written (pg : Page) (msgs : List JSValue) (data : JSValue) (n : Nat)
    (hn : n ≤ 9007199254740992)
    (hfill : pg.progressFill.isSome)
    (htype : getProp data "type" = .ok (.str "build-progress"))
    (hprog : getProp data "progress" = .ok (.num (SafeInt.ofNat n hn))) :
    (handleAll (msgs ++ [data]) pg).progressFill.map Element.width =
      some (toString n ++ "%") := by
  rw [handleAll_append]
  have h := handleAll_progressFill_isSome msgs pg hfill
  obtain ⟨el, hel⟩ := Option.isSome_iff_exists.mp h
  simp only [handleAll]
  rw [handleMessage_progress data _ htype, updateBuildProgress_progressFill,
    setProgressWidth_num data _ el (SafeInt.ofNat n hn) hel hprog]
  rfl

/-- C1, amended, at the sequence 10, 40, 5 on the start page: the bar ends
at `5%`. -/
theorem progress_is_last_written_witness :
    (handleAll ([progressMessage 10 "Compiling", progressMessage 40 "Linking"] ++
      [progressMessage 5 "Copying"]) startPage).progressFill.map Element.width =
      some (toString 5 ++ "%") :=
  progress_is_last_written startPage
    [progressMessage 10 "Compiling", progressMessage 40 "Linking"]
    (progressMessage 5 "Copying") 5 (by decide) (by decide) rfl rfl

/-! ## The alerts raised so far do not influence a handler -/

theorem setProgressWidth_alerts (data : JSValue) (pg : Page) (a : List String) :
    setProgressWidth data { pg with alerts := a } =
      ⟨{ (setProgressWidth data pg).page with alerts := a },
        (setProgressWidth data pg).error⟩ := by
  obtain ⟨fill, status, log, al, height⟩ := pg
  unfold setProgressWidth
  cases fill with
  | none => rfl
  | some el =>
    simp only
    cases getProp data "progress" with
    | error e => rfl
    | ok v => simp only; cases jsToString v <;> rfl

theorem setStatusText_alerts (data : JSValue) (pg : Page) (a : List String) :
    setStatusText data { pg with alerts := a } =
      ⟨{ (setStatusText data pg).page with alerts := a },
        (setStatusText data pg).error⟩ := by
  obtain ⟨fill, status, log, al, height⟩ := pg
  unfold setStatusText
  cases status with
  | none => rfl
  | some el =>
    simp only
    cases getProp data "message" with
    | error e => rfl
    | ok v => simp only; cases toTextContent v <;> rfl

theorem appendLog_alerts (data : JSValue) (pg : Page) (a : List String) :
    appendLog data { pg with alerts := a } =
      ⟨{ (appendLog data pg).page with alerts := a }, (appendLog data pg).error⟩ := by
  obtain ⟨fill, status, log, al, height⟩ := pg
  unfold appendLog
  cases log with
  | none => rfl
  | some el =>
    simp only
    cases getProp data "log" with
    | error e => rfl
    | ok v =>
      simp only
      cases v.truthy with
      | false => rfl
      | true => simp only [if_true]; cases jsToString v <;> rfl

theorem updateBuildProgress_alerts_irrelevant (data : JSValue) (pg : Page) (a : List String) :
    updateBuildProgress data { pg with alerts := a } =
      ⟨{ (updateBuildProgress data pg).page with alerts := a },
        (updateBuildProgress data pg).error⟩ := by
  unfold updateBuildProgress Outcome.andThen
  rw [setProgressWidth_alerts]
  generalize setProgressWidth data pg = o1
  obtain ⟨p1, e1⟩ := o1
  cases e1 with
  | some e => rfl
  | none =>
    simp only
    rw [setStatusText_alerts]
    generalize setStatusText data p1 = o2
    obtain ⟨p2, e2⟩ := o2
    cases e2 with
    | some e => rfl
    | none => simp only; rw [appendLog_alerts]

theorem alertField_alerts_irrelevant (pre key : String) (data : JSValue) (pg : Page)
    (a : List String) :
    (alertField pre key data { pg with alerts := a }).page.display =
        (alertField pre key data pg).page.display ∧
    (alertField pre key data { pg with alerts := a }).error =
        (alertField pre key data pg).error := by
  unfold alertField
  cases getProp data key with
  | error e => exact ⟨rfl, rfl⟩
  | ok v => simp only; cases jsToString v <;> exact ⟨rfl, rfl⟩

/-- Handling a message shows and raises the same whatever alerts were raised
before. -/
theorem handleMessage_alerts_irrelevant (data : JSValue) (pg : Page) (a : List String) :
    (handleMessage data { pg with alerts := a }).page.display =
        (handleMessage data pg).page.display ∧
    (handleMessage data { pg with alerts := a }).error = (handleMessage data pg).error := by
  unfold handleMessage
  cases getProp data "type" with
  | error e => exact ⟨rfl, rfl⟩
  | ok type =>
    simp only
    cases selectHandler type with
    | none => exact ⟨rfl, rfl⟩
    | some h =>
      cases h with
      | updateBuildProgress =>
        simp only [Handler.run]
        rw [updateBuildProgress_alerts_irrelevant]
        exact ⟨rfl, rfl⟩
      | handleBuildComplete => exact alertField_alerts_irrelevant _ _ data pg a
      | handleBuildError => exact alertField_alerts_irrelevant _ _ data pg a

/-- A call of `alert` changes the list of alerts and nothing else. -/
theorem alertField_page (pre key : String) (data : JSValue) (pg : Page) :
    (alertField pre key data pg).page =
      { pg with alerts := (alertField pre key data pg).page.alerts } := by
  unfold alertField
  cases getProp data key with
  | error e => rfl
  | ok v => simp only; cases jsToString v <;> rfl

/-! ## C2: a terminal message freezes nothing -/

theorem alertField_alerts (pre key : String) (data : JSValue) (pg : Page) (v : JSValue)
    (text : String) (hget : getProp data key = .ok v) (hconv : jsToString v = some text) :
    (alertField pre key data pg).page.alerts = pg.alerts ++ [pre ++ text] := by
  simp [alertField, hget, hconv]

theorem alertField_raises (pre key : String) (data : JSValue) (pg : Page) :
    ∃ raised, ∀ a,
      (alertField pre key data { pg with alerts := a }).page.alerts = a ++ raised := by
  unfold alertField
  cases getProp data key with
  | error e => exact ⟨[], fun a => by simp⟩
  | ok v =>
    simp only
    cases jsToString v with
    | none => exact ⟨[], fun a => by simp⟩
    | some text => exact ⟨[pre ++ text], fun a => rfl⟩

/-- What a message adds to the alerts does not depend on the alerts raised
before: it is appended to them. -/
theorem handleMessage_raises (data : JSValue) (pg : Page) :
    ∃ raised, ∀ a,
      (handleMessage data { pg with alerts := a }).page.alerts = a ++ raised := by
  unfold handleMessage
  cases getProp data "type" with
  | error e => exact ⟨[], fun a => by simp⟩
  | ok type =>
    simp only
    cases selectHandler type with
    | none => exact ⟨[], fun a => by simp⟩
    | some h =>
      simp only
      cases h with
      | updateBuildProgress =>
        refine ⟨[], fun a => ?_⟩
        simp only [Handler.run]
        rw [updateBuildProgress_alerts_irrelevant]
        simp
      | handleBuildComplete => exact alertField_raises _ _ data pg
      | handleBuildError => exact alertField_raises _ _ data pg

/-- C2, the claim as stated fails: after `build-complete` has been handled, a
`build-progress` message still moves the bar from 0 to 40 and replaces the
status, and a `build-error` still raises its alert, so that the build first
reported as succeeded is then reported as failed. -/
theorem terminal_message_does_not_freeze :
    shownProgress (handleAll [completeMessage "dist/app.exe"] startPage) = some 0 ∧
    shownProgress
      (handleAll [completeMessage "dist/app.exe", progressMessage 40 "Linking"] startPage)
      = some 40 ∧
    (handleAll [completeMessage "dist/app.exe", progressMessage 40 "Linking"]
      startPage).buildStatus.map Element.textContent = some "Linking" ∧
    (handleAll [completeMessage "dist/app.exe", errorMessage "disk full"] startPage).alerts =
      ["✓ Build complete!\n\nOutput: dist/app.exe", "✗ Build failed:\n\ndisk full"] := by
  decide

/-- C2, amended: `handleMessage` keeps no record of a terminal message.  A
`build-complete` or `build-error` message leaves the progress bar, the status
and the log as they were (it only raises an alert), and any message handled
after it shows and raises exactly what it would have without the terminal
message before it: the same display, the same error, and the same alerts,
added after those raised so far.  In particular a `build-error` handled after
a `build-complete` raises the failure alert after the success alert. -/
theorem terminal_message_keeps_no_state (terminal data : JSValue) (pg : Page)
    (hterm : getProp terminal "type" = .ok (.str "build-complete") ∨
      getProp terminal "type" = .ok (.str "build-error")) :
    (handleMessage terminal pg).page.display = pg.display ∧
    (handleMessage data (handleMessage terminal pg).page).page.display =
      (handleMessage data pg).page.display ∧
    (handleMessage data (handleMessage terminal pg).page).error =
      (handleMessage data pg).error ∧
    (∃ raised, (handleMessage data pg).page.alerts = pg.alerts ++ raised ∧
      (handleMessage data (handleMessage terminal pg).page).page.alerts =
        (handleMessage terminal pg).page.alerts ++ raised) ∧
    (∀ v1 v2 text1 text2,
      getProp terminal "type" = .ok (.str "build-complete") →
      getProp terminal "output_path" = .ok v1 → jsToString v1 = some text1 →
      getProp data "type" = .ok (.str "build-error") →
      getProp data "error" = .ok v2 → jsToString v2 = some text2 →
      (handleMessage data (handleMessage terminal pg).page).page.alerts =
        pg.alerts ++ ["✓ Build complete!\n\nOutput: " ++ text1,
          "✗ Build failed:\n\n" ++ text2]) := by
  have hpage : (handleMessage terminal pg).page =
      { pg with alerts := (handleMessage terminal pg).page.alerts } := by
    rcases hterm with h | h
    · rw [handleMessage_complete terminal pg h]; exact alertField_page _ _ terminal pg
    · rw [handleMessage_error terminal pg h]; exact alertField_page _ _ terminal pg
  refine ⟨?_, ?_, ?_, ?_, ?_⟩
  · rw [hpage]; rfl
  · rw [hpage]; exact (handleMessage_alerts_irrelevant data pg _).1
  · rw [hpage]; exact (handleMessage_alerts_irrelevant data pg _).2
  · obtain ⟨raised, h⟩ := handleMessage_raises data pg
    refine ⟨raised, h pg.alerts, ?_⟩
    rw [hpage]
    exact h _
  · intro v1 v2 text1 text2 ht hv1 ht1 hd hv2 ht2
    rw [handleMessage_error data _ hd, handleBuildError,
      alertField_alerts _ _ data _ v2 text2 hv2 ht2,
      handleMessage_complete terminal pg ht, handleBuildComplete,
      alertField_alerts _ _ terminal pg v1 text1 hv1 ht1]
    simp

/-- C2, amended, at `build-complete` followed by `build-error` on the start
page: the display stays as it was and the failure alert follows the success
alert. -/
theorem terminal_message_keeps_no_state_witness :
    (handleMessage (completeMessage "dist/app.exe") startPage).page.display
      = startPage.display ∧
    (handleMessage (errorMessage "disk full")
      (handleMessage (completeMessage "dist/app.exe") startPage).page).page.display =
      (handleMessage (errorMessage "disk full") startPage).page.display ∧
    (handleMessage (errorMessage "disk full")
      (handleMessage (completeMessage "dist/app.exe") startPage).page).page.alerts =
      startPage.alerts ++ ["✓ Build complete!\n\nOutput: " ++ "dist/app.exe",
        "✗ Build failed:\n\n" ++ "disk full"] :=
  have h := terminal_message_keeps_no_state (completeMessage "dist/app.exe")
    (errorMessage "disk full") startPage (Or.inl rfl)
  ⟨h.1, h.2.1, h.2.2.2.2 _ _ _ _ rfl rfl rfl rfl rfl rfl⟩

/-! ## C3: one alert for each terminal message -/

theorem alertField_length (pre key : String) (data : JSValue) (pg : Page) (v : JSValue)
    (text : String) (hget : getProp data key = .ok v) (hconv : jsToString v = some text) :
    (alertField pre key data pg).page.alerts = pg.alerts ++ [pre ++ text] := by
  simp [alertField, hget, hconv]

theorem handleMessage_terminal_alerts (data : JSValue) (pg : Page)
    (h : IsTerminalNotice data) :
    (handleMessage data pg).page.alerts.length = pg.alerts.length + 1 := by
  rcases h with ⟨htype, v, text, hget, hconv⟩ | ⟨htype, v, text, hget, hconv⟩
  · rw [handleMessage_complete data pg htype, handleBuildComplete,
      alertField_length _ _ data pg v text hget hconv]
    simp
  · rw [handleMessage_error data pg htype, handleBuildError,
      alertField_length _ _ data pg v text hget hconv]
    simp

/-- C3, the claim as stated fails: the same `build-complete` message delivered
twice raises the alert twice. -/
theorem duplicate_terminal_alerts_twice :
    (handleAll [completeMessage "dist/app.exe", completeMessage "dist/app.exe"]
      startPage).alerts =
      ["✓ Build complete!\n\nOutput: dist/app.exe",
        "✓ Build complete!\n\nOutput: dist/app.exe"] := by
  decide

/-- C3, amended: every terminal message handled raises its own alert, so a
sequence of `k` terminal messages (duplicates included) raises `k` alerts. -/
theorem terminal_messages_alert_each (msgs : List JSValue) (pg : Page)
    (hterm : ∀ data ∈ msgs, IsTerminalNotice data) :
    (handleAll msgs pg).alerts.length = pg.alerts.length + msgs.length := by
  induction msgs generalizing pg with
  | nil => rfl
  | cons x xs ih =>
    simp only [handleAll, List.length_cons]
    rw [ih _ (fun d hd => hterm d (List.mem_cons_of_mem x hd)),
      handleMessage_terminal_alerts x pg (hterm x (List.mem_cons_self x xs))]
    omega

/-- C3, amended, at three terminal messages, two of them the same: three
alerts. -/
theorem terminal_messages_alert_each_witness :
    (handleAll [completeMessage "dist/app.exe", completeMessage "dist/app.exe",
      errorMessage "disk full"] startPage).alerts.length = startPage.alerts.length + 3 :=
  terminal_messages_alert_each
    [completeMessage "dist/app.exe", completeMessage "dist/app.exe", errorMessage "disk full"]
    startPage (by
      intro data hmem
      simp only [List.mem_cons, List.mem_singleton, List.not_mem_nil, or_false] at hmem
      rcases hmem with h | h | h
      · subst h; exact Or.inl ⟨rfl, _, _, rfl, rfl⟩
      · subst h; exact Or.inl ⟨rfl, _, _, rfl, rfl⟩
      · subst h; exact Or.inr ⟨rfl, _, _, rfl, rfl⟩)

/-! ## The effect of one progress message on the bar and the status -/

/-- A `build-progress` message with a numeric progress and a string message,
handled on a page that has the bar and the status line: the bar gets the
numeral followed by `%`, the status line gets the message, and nothing else
of the two elements changes. -/
theorem progress_message_effect (data : JSValue) (pg : Page) (fill status : Element)
    (n : SafeInt) (m : String)
    (hfill : pg.progressFill = some fill) (hstatus : pg.buildStatus = some status)
    (htype : getProp data "type" = .ok (.str "build-progress"))
    (hprog : getProp data "progress" = .ok (.num n))
    (hmsg : getProp data "message" = .ok (.str m)) :
    (handleMessage data pg).page.progressFill =
        some { fill with width := toString n.val ++ "%" } ∧
    (handleMessage data pg).page.buildStatus = some { status with textContent := m } := by
  rw [handleMessage_progress data pg htype]
  have h1 : setProgressWidth data pg =
      ⟨{ pg with progressFill := some { fill with width := toString n.val ++ "%" } }, none⟩ := by
    simp [setProgressWidth, hfill, hprog, jsToString]
  have h2 : ∀ pg1 : Page, pg1.buildStatus = some status → setStatusText data pg1 =
      ⟨{ pg1 with buildStatus := some { status with textContent := m } }, none⟩ := by
    intro pg1 h
    simp [setStatusText, h, hmsg, toTextContent, jsToString]
  unfold updateBuildProgress
  rw [h1]
  simp only [Outcome.andThen]
  rw [h2 { pg with progressFill := some { fill with width := toString n.val ++ "%" } } hstatus]
  simp only
  exact ⟨(appendLog_frame data _).1, (appendLog_frame data _).2.1⟩

/-! ## C4: the order of two updates decides what is shown -/

/-- C4, the claim as stated fails: the updates with progress 10 and 40 leave
the bar at 40 and the status at `Linking` in one order, at 10 and `Compiling`
in the other. -/
theorem merge_depends_on_order :
    shownProgress
      (handleAll [progressMessage 10 "Compiling", progressMessage 40 "Linking"] startPage)
      = some 40 ∧
    shownProgress
      (handleAll [progressMessage 40 "Linking", progressMessage 10 "Compiling"] startPage)
      = some 10 ∧
    (handleAll [progressMessage 10 "Compiling", progressMessage 40 "Linking"]
      startPage).buildStatus.map Element.textContent = some "Linking" ∧
    (handleAll [progressMessage 40 "Linking", progressMessage 10 "Compiling"]
      startPage).buildStatus.map Element.textContent = some "Compiling" := by
  decide

/-- C4, amended: the merge is last-writer-wins.  Of two `build-progress`
updates `a` and `b` (progress an integer from 0 to `2^53`, message a string),
the one handled second decides the bar and the status: `a` then `b` shows the
progress and message of `b`, `b` then `a` those of `a`. -/
theorem last_update_wins (a b : JSValue) (pg : Page) (na nb : Nat) (ma mb : String)
    (hna : na ≤ 9007199254740992) (hnb : nb ≤ 9007199254740992)
    (hfill : pg.progressFill.isSome) (hstatus : pg.buildStatus.isSome)
    (hta : getProp a "type" = .ok (.str "build-progress"))
    (htb : getProp b "type" = .ok (.str "build-progress"))
    (hpa : getProp a "progress" = .ok (.num (SafeInt.ofNat na hna)))
    (hpb : getProp b "progress" = .ok (.num (SafeInt.ofNat nb hnb)))
    (hma : getProp a "message" = .ok (.str ma))
    (hmb : getProp b "message" = .ok (.str mb)) :
    (handleAll [a, b] pg).progressFill.map Element.width = some (toString nb ++ "%") ∧
    (handleAll [a, b] pg).buildStatus.map Element.textContent = some mb ∧
    (handleAll [b, a] pg).progressFill.map Element.width = some (toString na ++ "%") ∧
    (handleAll [b, a] pg).buildStatus.map Element.textContent = some ma := by
  obtain ⟨fill, hf⟩ := Option.isSome_iff_exists.mp hfill
  obtain ⟨status, hs⟩ := Option.isSome_iff_exists.mp hstatus
  have ha := progress_message_effect a pg fill status _ ma hf hs hta hpa hma
  have hb := progress_message_effect b pg fill status _ mb hf hs htb hpb hmb
  have hab := progress_message_effect b (handleMessage a pg).page _ _ _ mb ha.1 ha.2
    htb hpb hmb
  have hba := progress_message_effect a (handleMessage b pg).page _ _ _ ma hb.1 hb.2
    hta hpa hma
  simp only [handleAll]
  rw [hab.1, hab.2, hba.1, hba.2]
  exact ⟨rfl, rfl, rfl, rfl⟩

/-- C4, amended, at the updates 10 `Compiling` and 40 `Linking` on the start
page. -/
theorem last_update_wins_witness :
    (handleAll [progressMessage 10 "Compiling", progressMessage 40 "Linking"]
      startPage).progressFill.map Element.width = some (toString 40 ++ "%") ∧
    (handleAll [progressMessage 10 "Compiling", progressMessage 40 "Linking"]
      startPage).buildStatus.map Element.textContent = some "Linking" ∧
    (handleAll [progressMessage 40 "Linking", progressMessage 10 "Compiling"]
      startPage).progressFill.map Element.width = some (toString 10 ++ "%") ∧
    (handleAll [progressMessage 40 "Linking", progressMessage 10 "Compiling"]
      startPage).buildStatus.map Element.textContent = some "Compiling" :=
  last_update_wins (progressMessage 10 "Compiling") (progressMessage 40 "Linking") startPage
    10 40 "Compiling" "Linking" (by decide) (by decide) (by decide) (by decide)
    rfl rfl rfl rfl rfl rfl

/-! ## C5: the progress value is shown as received -/

/-- C5, the claim as stated fails: a `build-progress` message with progress
150 leaves the bar at 150, outside the range 0 to 100. -/
theorem progress_150_shown :
    shownProgress (handleMessage (progressMessage 150 "Linking") startPage).page = some 150 ∧
    ¬ (150 ≤ 100) := by
  decide

/-- C5, amended: the value is not clamped.  A `build-progress` message whose
progress is the integer `n`, from 0 to `2^53`, sets `style.width` of the bar
to the numeral of `n` followed by `%`, also for `n` above 100, and changes
nothing else of the bar. -/
theorem progress_shown_unclamped (data : JSValue) (pg : Page) (fill : Element) (n : Nat)
    (hn : n ≤ 9007199254740992)
    (hfill : pg.progressFill = some fill)
    (htype : getProp data "type" = .ok (.str "build-progress"))
    (hprog : getProp data "progress" = .ok (.num (SafeInt.ofNat n hn))) :
    (handleMessage data pg).page.progressFill =
      some { fill with width := toString n ++ "%" } := by
  rw [handleMessage_progress data pg htype, updateBuildProgress_progressFill,
    setProgressWidth_num data pg fill (SafeInt.ofNat n hn) hfill hprog]
  rfl

/-- C5, amended, at progress 150 on the start page. -/
theorem progress_shown_unclamped_witness :
    (handleMessage (progressMessage 150 "Linking") startPage).page.progressFill =
      some { width := toString 150 ++ "%", textContent := "", scrollTop := 0 } :=
  progress_shown_unclamped (progressMessage 150 "Linking") startPage ⟨"0%", "", 0⟩ 150
    (by decide) rfl rfl rfl

/-! ## C6: the correlation id is not read -/

theorem updateBuildProgress_congr (d1 d2 : JSValue) (pg : Page)
    (hprog : getProp d1 "progress" = getProp d2 "progress")
    (hmsg : getProp d1 "message" = getProp d2 "message")
    (hlog : getProp d1 "log" = getProp d2 "log") :
    updateBuildProgress d1 pg = updateBuildProgress d2 pg := by
  have h1 : ∀ pg1, setProgressWidth d1 pg1 = setProgressWidth d2 pg1 := by
    intro pg1; simp only [setProgressWidth, hprog]
  have h2 : ∀ pg1, setStatusText d1 pg1 = setStatusText d2 pg1 := by
    intro pg1; simp only [setStatusText, hmsg]
  have h3 : ∀ pg1, appendLog d1 pg1 = appendLog d2 pg1 := by
    intro pg1; simp only [appendLog, hlog]
  simp only [updateBuildProgress, h1, h2, h3]

/-- C6, the claim as stated fails: messages tagged `build-1` and `build-2`
both move the one bar from 0 to 50 and replace the status, so whichever build
the page shows, a message of the other build changes what it shows. -/
theorem other_correlation_id_changes_display :
    shownProgress startPage = some 0 ∧
    shownProgress (handleMessage (taggedProgress "build-1" 50 "Linking") startPage).page
      = some 50 ∧
    shownProgress (handleMessage (taggedProgress "build-2" 50 "Linking") startPage).page
      = some 50 ∧
    (handleMessage (taggedProgress "build-2" 50 "Linking") startPage).page.buildStatus.map
      Element.textContent = some "Linking" := by
  decide

/-- C6, amended: `handleMessage` does not read `correlationId`.  What it does
with a message is decided by the fields `type`, `progress`, `message`, `log`,
`output_path` and `error` alone: two messages that agree on these are handled
identically, whatever correlation ids (or other fields) they carry. -/
theorem handleMessage_reads_six_fields (d1 d2 : JSValue) (pg : Page)
    (hsame : ∀ key ∈ ["type", "progress", "message", "log", "output_path", "error"],
      getProp d1 key = getProp d2 key) :
    handleMessage d1 pg = handleMessage d2 pg := by
  have htype := hsame "type" (by simp)
  have hprog := hsame "progress" (by simp)
  have hmsg := hsame "message" (by simp)
  have hlog := hsame "log" (by simp)
  have hout := hsame "output_path" (by simp)
  have herr := hsame "error" (by simp)
  unfold handleMessage
  rw [htype]
  cases getProp d2 "type" with
  | error e => rfl
  | ok type =>
    simp only
    cases selectHandler type with
    | none => rfl
    | some h =>
      cases h with
      | updateBuildProgress => exact updateBuildProgress_congr d1 d2 pg hprog hmsg hlog
      | handleBuildComplete =>
        simp only [Handler.run, handleBuildComplete, alertField, hout]
      | handleBuildError =>
        simp only [Handler.run, handleBuildError, alertField, herr]

/-- C6, amended, at two messages that differ in the correlation id only. -/
theorem handleMessage_reads_six_fields_witness :
    handleMessage (taggedProgress "build-1" 50 "Linking") startPage =
      handleMessage (taggedProgress "build-2" 50 "Linking") startPage :=
  handleMessage_reads_six_fields (taggedProgress "build-1" 50 "Linking")
    (taggedProgress "build-2" 50 "Linking") startPage (by
      intro key hkey
      simp only [List.mem_cons, List.mem_singleton, List.not_mem_nil, or_false] at hkey
      rcases hkey with h | h | h | h | h | h <;> subst h <;> rfl)

/-! ## C7: the log is appended to -/

theorem setProgressWidth_ok (data : JSValue) (pg : Page) (h : Converts data "progress") :
    (setProgressWidth data pg).error = none := by
  obtain ⟨v, text, hget, hconv⟩ := h
  unfold setProgressWidth
  cases pg.progressFill with
  | none => rfl
  | some el => simp [hget, hconv]

theorem toTextContent_of_jsToString (v : JSValue) (text : String)
    (h : jsToString v = some text) : ∃ t, toTextContent v = some t := by
  cases v with
  | undefined => exact ⟨"", rfl⟩
  | null => exact ⟨"", rfl⟩
  | bool b => exact ⟨text, h⟩
  | num n => exact ⟨text, h⟩
  | str s => exact ⟨text, h⟩
  | arr items => exact ⟨text, h⟩
  | obj fields => exact ⟨text, h⟩

theorem setStatusText_ok (data : JSValue) (pg : Page) (h : Converts data "message") :
    (setStatusText data pg).error = none := by
  obtain ⟨v, text, hget, hconv⟩ := h
  obtain ⟨t, ht⟩ := toTextContent_of_jsToString v text hconv
  unfold setStatusText
  cases pg.buildStatus with
  | none => rfl
  | some el => simp [hget, ht]

/-- Lines 210 to 213 on a non-empty string. -/
theorem appendLog_line (data : JSValue) (pg : Page) (log : Element) (line : String)
    (hlog : pg.buildLog = some log)
    (hline : getProp data "log" = .ok (.str line)) (hne : line ≠ "") :
    (appendLog data pg).page.buildLog.map Element.textContent =
      some (log.textContent ++ line ++ "\n") := by
  simp [appendLog, hlog, hline, JSValue.truthy, hne, jsToString, String.append_assoc]

/-- One progress message with a log line, on a page that has the log. -/
theorem handleMessage_log (data : JSValue) (pg : Page) (log : Element) (line : String)
    (hlog : pg.buildLog = some log)
    (htype : getProp data "type" = .ok (.str "build-progress"))
    (hline : getProp data "log" = .ok (.str line)) (hne : line ≠ "")
    (hprog : Converts data "progress") (hmsg : Converts data "message") :
    (handleMessage data pg).page.buildLog.map Element.textContent =
      some (log.textContent ++ line ++ "\n") := by
  rw [handleMessage_progress data pg htype]
  unfold updateBuildProgress Outcome.andThen
  rw [setProgressWidth_ok data pg hprog]
  simp only
  rw [setStatusText_ok data _ hmsg]
  simp only
  apply appendLog_line data _ log line _ hline hne
  rw [(setStatusText_frame data _).2.1, (setProgressWidth_frame data pg).2.1, hlog]

/-- Lines 210 to 213 on the empty string: nothing is done. -/
theorem appendLog_empty (data : JSValue) (pg : Page)
    (hline : getProp data "log" = .ok (.str "")) :
    appendLog data pg = ⟨pg, none⟩ := by
  unfold appendLog
  cases pg.buildLog with
  | none => rfl
  | some el => simp [hline, JSValue.truthy]

/-- One progress message whose log line is the empty string leaves the log
element as it is. -/
theorem handleMessage_empty_log (data : JSValue) (pg : Page)
    (htype : getProp data "type" = .ok (.str "build-progress"))
    (hline : getProp data "log" = .ok (.str "")) :
    (handleMessage data pg).page.buildLog = pg.buildLog := by
  rw [handleMessage_progress data pg htype]
  unfold updateBuildProgress Outcome.andThen
  cases h1 : (setProgressWidth data pg).error with
  | some e => simp only; exact (setProgressWidth_frame data pg).2.1
  | none =>
    simp only
    cases h2 : (setStatusText data (setProgressWidth data pg).page).error with
    | some e =>
      simp only
      rw [(setStatusText_frame data _).2.1, (setProgressWidth_frame data pg).2.1]
    | none =>
      simp only
      rw [appendLog_empty data _ hline, (setStatusText_frame data _).2.1,
        (setProgressWidth_frame data pg).2.1]

/-- C7, the claim as stated fails: on a page whose log holds the line
`make all`, a message whose log line is the empty string leaves the log as it
was instead of appending a newline, and a message whose progress cannot be
converted to a string raises at line 208, before its log line is appended. -/
theorem log_line_not_appended :
    loggedPage.buildLog.map Element.textContent = some "make all\n" ∧
    (handleMessage (logMessage (.num ⟨10, by decide⟩) "Compiling" "")
      loggedPage).page.buildLog.map Element.textContent = some "make all\n" ∧
    (handleMessage (logMessage (.num ⟨10, by decide⟩) "Compiling" "")
      loggedPage).page.buildLog.map Element.textContent ≠ some ("make all\n" ++ "" ++ "\n") ∧
    (handleMessage (logMessage (.obj [("toString", .num ⟨1, by decide⟩)]) "Compiling"
      "gcc main.c") loggedPage).page.buildLog.map Element.textContent = some "make all\n" ∧
    (handleMessage (logMessage (.obj [("toString", .num ⟨1, by decide⟩)]) "Compiling"
      "gcc main.c") loggedPage).error = some JSError.typeError := by
  decide

/-- C7, amended: for every `build-progress` message whose `log` is a string
and whose `progress` and `message` convert to strings, handled on a page that
has the log element: when the line is not empty, the log afterwards is the
log before followed by that line and a newline, and delivering the message
twice appends the line twice; when the line is the empty string, the log
element is left exactly as it was. -/
theorem log_line_appended (data : JSValue) (pg : Page) (log : Element) (line : String)
    (hlog : pg.buildLog = some log)
    (htype : getProp data "type" = .ok (.str "build-progress"))
    (hline : getProp data "log" = .ok (.str line))
    (hprog : Converts data "progress") (hmsg : Converts data "message") :
    (line ≠ "" →
      (handleMessage data pg).page.buildLog.map Element.textContent =
        some (log.textContent ++ line ++ "\n") ∧
      (handleAll [data, data] pg).buildLog.map Element.textContent =
        some (log.textContent ++ line ++ "\n" ++ line ++ "\n")) ∧
    (line = "" → (handleMessage data pg).page.buildLog = some log) := by
  constructor
  · intro hne
    have h1 := handleMessage_log data pg log line hlog htype hline hne hprog hmsg
    refine ⟨h1, ?_⟩
    simp only [handleAll]
    cases hlog1 : (handleMessage data pg).page.buildLog with
    | none => rw [hlog1] at h1; simp at h1
    | some log1 =>
      rw [hlog1] at h1
      simp only [Option.map_some', Option.some.injEq] at h1
      rw [handleMessage_log data _ log1 line hlog1 htype hline hne hprog hmsg, h1]
  · intro hempty
    subst hempty
    rw [handleMessage_empty_log data pg htype hline, hlog]

/-- C7, amended, on the page whose log holds the line `make all`: the line
`gcc main.c` is appended, twice when delivered twice, and the empty line
leaves the log element as it was. -/
theorem log_line_appended_witness :
    ((handleMessage (logMessage (.num ⟨10, by decide⟩) "Compiling" "gcc main.c")
        loggedPage).page.buildLog.map Element.textContent =
        some ("make all\n" ++ "gcc main.c" ++ "\n") ∧
      (handleAll [logMessage (.num ⟨10, by decide⟩) "Compiling" "gcc main.c",
        logMessage (.num ⟨10, by decide⟩) "Compiling" "gcc main.c"]
        loggedPage).buildLog.map Element.textContent =
        some ("make all\n" ++ "gcc main.c" ++ "\n" ++ "gcc main.c" ++ "\n")) ∧
    (handleMessage (logMessage (.num ⟨10, by decide⟩) "Compiling" "")
      loggedPage).page.buildLog = some ⟨"", "make all\n", 9⟩ :=
  ⟨(log_line_appended (logMessage (.num ⟨10, by decide⟩) "Compiling" "gcc main.c")
      loggedPage ⟨"", "make all\n", 9⟩ "gcc main.c" rfl rfl rfl
      ⟨_, _, rfl, rfl⟩ ⟨_, _, rfl, rfl⟩).1 (by decide),
    (log_line_appended (logMessage (.num ⟨10, by decide⟩) "Compiling" "")
      loggedPage ⟨"", "make all\n", 9⟩ "" rfl rfl rfl
      ⟨_, _, rfl, rfl⟩ ⟨_, _, rfl, rfl⟩).2 rfl⟩

/-! ## C8: dispatch on the message type -/

theorem selectHandler_progress (t : JSValue) :
    selectHandler t = some Handler.updateBuildProgress ↔ t = .str "build-progress" := by
  cases t with
  | str s =>
    simp only [selectHandler, JSValue.str.injEq]
    constructor
    · intro h
      split_ifs at h with h1 h2 h3
      · exact h1
      · cases h
      · cases h
    · intro h; simp [h]
  | _ => simp [selectHandler]

theorem selectHandler_complete (t : JSValue) :
    selectHandler t = some Handler.handleBuildComplete ↔ t = .str "build-complete" := by
  cases t with
  | str s =>
    simp only [selectHandler, JSValue.str.injEq]
    constructor
    · intro h
      split_ifs at h with h1 h2 h3
      · cases h
      · exact h2
      · cases h
    · intro h; subst h; decide
  | _ => simp [selectHandler]

theorem selectHandler_error (t : JSValue) :
    selectHandler t = some Handler.handleBuildError ↔ t = .str "build-error" := by
  cases t with
  | str s =>
    simp only [selectHandler, JSValue.str.injEq]
    constructor
    · intro h
      split_ifs at h with h1 h2 h3
      · cases h
      · cases h
      · exact h3
    · intro h; subst h; decide
  | _ => simp [selectHandler]

theorem selectHandler_none (t : JSValue) (h1 : t ≠ .str "build-progress")
    (h2 : t ≠ .str "build-complete") (h3 : t ≠ .str "build-error") :
    selectHandler t = none := by
  cases hsel : selectHandler t with
  | none => rfl
  | some h =>
    cases h with
    | updateBuildProgress => exact absurd ((selectHandler_progress t).mp hsel) h1
    | handleBuildComplete => exact absurd ((selectHandler_complete t).mp hsel) h2
    | handleBuildError => exact absurd ((selectHandler_error t).mp hsel) h3

/-- C8: the `switch` of `handleMessage` selects `updateBuildProgress` exactly
for the type `build-progress`, `handleBuildComplete` exactly for
`build-complete` and `handleBuildError` exactly for `build-error`; a message
object runs the handler selected for its `type` and no other, and one whose
`type` is anything else, or absent, leaves the page as it is and raises
nothing. -/
theorem handleMessage_dispatch (fields : List (String × JSValue)) (pg : Page) :
    (∀ t, selectHandler t = some Handler.updateBuildProgress ↔ t = .str "build-progress") ∧
    (∀ t, selectHandler t = some Handler.handleBuildComplete ↔ t = .str "build-complete") ∧
    (∀ t, selectHandler t = some Handler.handleBuildError ↔ t = .str "build-error") ∧
    (getProp (.obj fields) "type" = .ok (.str "build-progress") →
      handleMessage (.obj fields) pg = updateBuildProgress (.obj fields) pg) ∧
    (getProp (.obj fields) "type" = .ok (.str "build-complete") →
      handleMessage (.obj fields) pg = handleBuildComplete (.obj fields) pg) ∧
    (getProp (.obj fields) "type" = .ok (.str "build-error") →
      handleMessage (.obj fields) pg = handleBuildError (.obj fields) pg) ∧
    (getProp (.obj fields) "type" ≠ .ok (.str "build-progress") →
      getProp (.obj fields) "type" ≠ .ok (.str "build-complete") →
      getProp (.obj fields) "type" ≠ .ok (.str "build-error") →
      handleMessage (.obj fields) pg = ⟨pg, none⟩) := by
  refine ⟨selectHandler_progress, selectHandler_complete, selectHandler_error,
    handleMessage_progress _ pg, handleMessage_complete _ pg, handleMessage_error _ pg, ?_⟩
  intro h1 h2 h3
  simp only [getProp, ne_eq, Except.ok.injEq] at h1 h2 h3
  simp only [handleMessage, getProp, selectHandler_none _ h1 h2 h3]

/-! ## C9: malformed frames -/

/-- C9, the claim as stated fails: a frame that is not JSON makes the handler
raise the `SyntaxError` of `JSON.parse`, and the frame `null` makes it raise a
`TypeError` at `data.type`. -/
theorem malformed_frame_raises :
    (onmessage (.error .syntaxError) startPage).error = some JSError.syntaxError ∧
    (onmessage (.ok .null) startPage).error = some JSError.typeError := by
  decide

/-- C9, amended: a malformed frame never changes the page, and whether the
handler raises depends on the frame.  Text that is not JSON raises the error
of `JSON.parse`; the value `null` raises a `TypeError`; a boolean, a number,
a string or an array is dropped without an error. -/
theorem malformed_frame_outcome (pg : Page) :
    (∀ e, onmessage (.error e) pg = ⟨pg, some e⟩) ∧
    onmessage (.ok .null) pg = ⟨pg, some .typeError⟩ ∧
    (∀ b, onmessage (.ok (.bool b)) pg = ⟨pg, none⟩) ∧
    (∀ n, onmessage (.ok (.num n)) pg = ⟨pg, none⟩) ∧
    (∀ s, onmessage (.ok (.str s)) pg = ⟨pg, none⟩) ∧
    (∀ items, onmessage (.ok (.arr items)) pg = ⟨pg, none⟩) :=
  ⟨fun _ => rfl, rfl, fun _ => rfl, fun _ => rfl, fun _ => rfl, fun _ => rfl⟩

/-! ## C10: `send` -/

/-- C10: with a socket in the `OPEN` state, `send` hands the socket exactly
one more frame, the JSON text of the message; with no socket, or a socket in
any other state, the channel is left exactly as it was (nothing is sent and
nothing is kept for later), and `send` never raises. -/
theorem send_only_when_open (stringify : JSValue → Option String) (data : JSValue)
    (ch : Channel) :
    (∀ sock text, ch.ws = some sock → sock.readyState = ReadyState.open →
      stringify data = some text →
      send stringify data ch =
        { ch with ws := some { sock with sent := sock.sent ++ [text] } }) ∧
    (∀ sock, ch.ws = some sock → sock.readyState ≠ ReadyState.open →
      send stringify data ch = ch) ∧
    (ch.ws = none → send stringify data ch = ch) := by
  refine ⟨?_, ?_, ?_⟩
  · intro sock text hws hopen htext
    simp [send, hws, hopen, htext]
  · intro sock hws hstate
    simp [send, hws, hstate]
  · intro hws
    simp [send, hws]

/-! ## C11 and C12: reconnection and connection failures -/

theorem connect_ok (raised : Option JSError) (rt : Runtime) :
    ∃ rt1, connect raised rt = .ok rt1 := by
  cases raised with
  | none => exact ⟨_, rfl⟩
  | some e => exact ⟨_, rfl⟩

/-- Whenever `this.ws` holds a socket, that socket carries the handlers:
`connect()` is the only writer of `this.ws` and installs them at once. -/
theorem connect_wired (raised : Option JSError) (rt rt1 : Runtime)
    (hinv : rt.channel.ws.isSome → rt.wired = true)
    (hrun : connect raised rt = .ok rt1) :
    rt1.channel.ws.isSome → rt1.wired = true := by
  cases raised with
  | none =>
    simp only [connect, connectTry, Except.ok.injEq] at hrun
    subst hrun
    intro _
    rfl
  | some e =>
    simp only [connect, connectTry, Except.ok.injEq] at hrun
    subst hrun
    exact hinv

theorem setReadyState_wired (rt : Runtime) (state : ReadyState) :
    (rt.setReadyState state).wired = rt.wired ∧
    (rt.setReadyState state).timers = rt.timers ∧
    (rt.setReadyState state).console = rt.console := by
  unfold Runtime.setReadyState
  cases rt.channel.ws <;> exact ⟨rfl, rfl, rfl⟩

theorem step_wired (ev : ChannelEvent) (rt : Runtime)
    (hinv : rt.channel.ws.isSome → rt.wired = true) :
    (ev.step rt).channel.ws.isSome → (ev.step rt).wired = true := by
  obtain ⟨⟨url, ws⟩, wired, timers, console⟩ := rt
  cases ev with
  | opened =>
    cases ws with
    | none => intro h; simp [ChannelEvent.step] at h
    | some sock =>
      have hw : wired = true := hinv rfl
      subst hw
      intro _
      simp only [ChannelEvent.step, Runtime.setReadyState, onopen]
      split <;> rfl
  | failed =>
    cases ws with
    | none => intro h; simp [ChannelEvent.step] at h
    | some sock =>
      have hw : wired = true := hinv rfl
      subst hw
      intro _
      rfl
  | closed =>
    cases ws with
    | none => intro h; simp [ChannelEvent.step] at h
    | some sock =>
      have hw : wired = true := hinv rfl
      subst hw
      intro _
      simp only [ChannelEvent.step, Runtime.setReadyState, onclose]
      split <;> rfl
  | timerFired raised =>
    cases timers with
    | nil => exact hinv
    | cons t rest =>
      simp only [ChannelEvent.step]
      obtain ⟨rt1, h1⟩ := connect_ok raised
        { channel := ⟨url, ws⟩, wired := wired, timers := rest, console := console }
      rw [h1]
      exact connect_wired raised
        { channel := ⟨url, ws⟩, wired := wired, timers := rest, console := console } rt1
        hinv h1

theorem runChannel_wired (events : List ChannelEvent) (rt : Runtime)
    (hinv : rt.channel.ws.isSome → rt.wired = true) :
    (runChannel events rt).channel.ws.isSome → (runChannel events rt).wired = true := by
  induction events generalizing rt with
  | nil => exact hinv
  | cons ev rest ih => exact ih _ (step_wired ev rt hinv)

theorem startChannel_wired (url : String) (raised : Option JSError) :
    (startChannel url raised).channel.ws.isSome → (startChannel url raised).wired = true := by
  cases raised with
  | none => intro _; rfl
  | some e => intro h; cases h

/-- C11: after any construction and any sequence of events (so after any
number of earlier closures and reconnection attempts), the closure of the
socket the channel holds schedules exactly one new `connect()`, with the
delay 5000 ms. -/
theorem closure_schedules_one_reconnect (url : String) (raised : Option JSError)
    (events : List ChannelEvent) (sock : Socket)
    (hws : (runChannel events (startChannel url raised)).channel.ws = some sock)
    (hlive : sock.readyState ≠ ReadyState.closed) :
    (ChannelEvent.closed.step (runChannel events (startChannel url raised))).timers =
      (runChannel events (startChannel url raised)).timers ++ [5000] := by
  have hw := runChannel_wired events _ (startChannel_wired url raised) (by rw [hws]; rfl)
  simp only [ChannelEvent.step, hws, hlive, if_false, hw, if_true, onclose, reconnectDelay,
    (setReadyState_wired _ _).2.1]

/-- C11, on the channel that has already closed and reconnected twice: the
third closure schedules one more `connect()` after 5000 ms. -/
theorem closure_schedules_one_reconnect_witness :
    (ChannelEvent.closed.step (runChannel
      [.opened, .closed, .timerFired none, .closed, .timerFired none, .opened]
      (startChannel "ws://localhost:8000/ws" none))).timers =
      (runChannel [.opened, .closed, .timerFired none, .closed, .timerFired none, .opened]
        (startChannel "ws://localhost:8000/ws" none)).timers ++ [5000] :=
  closure_schedules_one_reconnect "ws://localhost:8000/ws" none
    [.opened, .closed, .timerFired none, .closed, .timerFired none, .opened]
    ⟨ReadyState.open, []⟩ (by decide) (by decide)

/-- C12: whatever `new WebSocket` does, also when it raises, `connect()`
returns without raising, so does `new BuilderWebSocket(url)`, and the
initialisation at the end of the file gets its socket object without the
`catch` being entered. -/
theorem connect_never_raises (raised : Option JSError) (rt : Runtime) (url : String) :
    (∃ rt1, connect raised rt = .ok rt1) ∧
    (∃ rt1, newBuilderWebSocket url raised = .ok rt1) ∧
    (∃ rt1, initSocket raised = (some rt1, [])) := by
  refine ⟨connect_ok raised rt, connect_ok raised _, ?_⟩
  cases raised with
  | none => exact ⟨_, rfl⟩
  | some e => exact ⟨_, rfl⟩

/-! ## C13: the poller -/

/-- C13, the code at a tick with an active build: the section is shown
(`display` is `block`), and the tick requests nothing. -/
theorem poll_tick_requests_nothing :
    pollTick (some "block") [] = [] ∧ pollTick (some "none") [] = [] ∧ pollTick none [] = [] := by
  decide

/-! ## C14 to C16: `BuilderAPI.request` -/

theorem request_result_eq (fetch : FetchCall → Except ErrorValue Response)
    (baseUrl endpoint : String) (options : List (String × JSValue)) :
    (request fetch baseUrl endpoint options).result =
      (requestTry fetch baseUrl endpoint options).2 := by
  unfold request
  split <;> simp_all

/-- C14: `request` returns the decoded body exactly when `fetch` resolves
with a response whose `ok` is true and whose body decodes; when `fetch`
rejects, or the body does not decode, it raises that very error, and for a
response whose `ok` is false it raises an `Error` with the message
`API error: ` followed by the status text. -/
theorem request_result (fetch : FetchCall → Except ErrorValue Response)
    (baseUrl endpoint : String) (options : List (String × JSValue)) :
    (∀ body, (request fetch baseUrl endpoint options).result = .ok body ↔
      ∃ response, fetch (requestCall baseUrl endpoint options) = .ok response ∧
        response.ok = true ∧ response.json = .ok body) ∧
    (∀ e, fetch (requestCall baseUrl endpoint options) = .error e →
      (request fetch baseUrl endpoint options).result = .error e) ∧
    (∀ response, fetch (requestCall baseUrl endpoint options) = .ok response →
      response.ok = false →
      (request fetch baseUrl endpoint options).result =
        .error ⟨"Error", "API error: " ++ response.statusText⟩) ∧
    (∀ response e, fetch (requestCall baseUrl endpoint options) = .ok response →
      response.ok = true → response.json = .error e →
      (request fetch baseUrl endpoint options).result = .error e) := by
  rw [request_result_eq]
  unfold requestTry
  refine ⟨?_, ?_, ?_, ?_⟩
  · intro body
    cases hf : fetch (requestCall baseUrl endpoint options) with
    | error e => simp [hf]
    | ok response =>
      cases hok : response.ok with
      | false => simp [hf, hok]
      | true =>
        cases hj : response.json with
        | error e => simp [hf, hok, hj]
        | ok b => simp [hf, hok, hj]
  · intro e hf
    simp [hf]
  · intro response hf hok
    simp [hf, hok]
  · intro response e hf hok hj
    simp [hf, hok, hj]

/-- C15, the claim as stated fails: a connection lost before the response
and a connection lost while the body is read are failures of different
causes, and `request` raises the same error for both, with nothing in it to
tell them apart. -/
theorem failures_of_two_causes_coincide :
    (request networkDown "http://localhost:8000/api" "/projects" []).result =
      .error ⟨"TypeError", "Failed to fetch"⟩ ∧
    (request bodyLost "http://localhost:8000/api" "/projects" []).result =
      .error ⟨"TypeError", "Failed to fetch"⟩ :=
  ⟨rfl, rfl⟩

/-- C15, amended: a failure of `request` is the error that was raised, as it
is, and `request` adds no category to it.  When `fetch` rejects with an error
and when the body fails to decode with the same error, the two runs raise and
log the same; only the failure for a response that is not `ok` is made by
`request` itself (C14). -/
theorem request_failure_is_the_error (fetchA fetchB : FetchCall → Except ErrorValue Response)
    (baseUrl endpoint : String) (options : List (String × JSValue)) (e : ErrorValue)
    (response : Response)
    (hA : fetchA (requestCall baseUrl endpoint options) = .error e)
    (hB : fetchB (requestCall baseUrl endpoint options) = .ok response)
    (hok : response.ok = true) (hjson : response.json = .error e) :
    (request fetchA baseUrl endpoint options).result = .error e ∧
    (request fetchB baseUrl endpoint options).result = .error e ∧
    (request fetchA baseUrl endpoint options).logged =
      (request fetchB baseUrl endpoint options).logged := by
  simp [request, requestTry, hA, hB, hok, hjson]

/-- C15, amended, at the two lost connections. -/
theorem request_failure_is_the_error_witness :
    (request networkDown "http://localhost:8000/api" "/projects" []).result =
      .error ⟨"TypeError", "Failed to fetch"⟩ ∧
    (request bodyLost "http://localhost:8000/api" "/projects" []).result =
      .error ⟨"TypeError", "Failed to fetch"⟩ ∧
    (request networkDown "http://localhost:8000/api" "/projects" []).logged =
      (request bodyLost "http://localhost:8000/api" "/projects" []).logged :=
  request_failure_is_the_error networkDown bodyLost "http://localhost:8000/api" "/projects" []
    ⟨"TypeError", "Failed to fetch"⟩ ⟨true, "OK", .error ⟨"TypeError", "Failed to fetch"⟩⟩
    rfl rfl rfl rfl

/-- One run of `request` on an options object calls `fetch` once, with the
address and the `init` object of the call. -/
theorem request_fetched_eq (fetch : FetchCall → Except ErrorValue Response)
    (baseUrl endpoint : String) (options : List (String × JSValue)) :
    (request fetch baseUrl endpoint options).fetched = [requestCall baseUrl endpoint options] := by
  unfold request requestTry
  cases hf : fetch (requestCall baseUrl endpoint options) with
  | error e => simp [hf]
  | ok response =>
    cases hok : response.ok with
    | false => simp [hf, hok]
    | true => cases hj : response.json <;> simp [hf, hok, hj]

/-- C16, the claim as stated fails: with `null` passed as `options`, reading
`options.headers` raises before `fetch` is called, so that the call of
`request` invokes `fetch` not once but never, whatever `fetch` would have
done. -/
theorem request_null_options_never_fetches :
    (requestAny "Cannot read properties of null" networkDown "http://localhost:8000/api"
      "/projects" .null).fetched.length = 0 ∧
    (requestAny "Cannot read properties of null" bodyLost "http://localhost:8000/api"
      "/projects" .null).fetched.length = 0 ∧
    (requestAny "Cannot read properties of null" networkDown "http://localhost:8000/api"
      "/projects" .null).result = .error ⟨"TypeError", "Cannot read properties of null"⟩ :=
  ⟨rfl, rfl, rfl⟩

/-- C16, amended: whatever `fetch` does (resolve with any status, reject, or
hand over a body that does not decode), one call of `request` with an
`options` value other than `null` (an object, an absent argument, or any
other value) calls `fetch` exactly once, with the address `baseUrl` followed
by `endpoint`, and a failed attempt is not retried; with `null` it calls
`fetch` not at all and raises the `TypeError` of the read. -/
theorem request_fetches_once_unless_null (typeErrorText : String)
    (fetch : FetchCall → Except ErrorValue Response) (baseUrl endpoint : String)
    (options : JSValue) :
    (options ≠ .null →
      (requestAny typeErrorText fetch baseUrl endpoint options).fetched.length = 1 ∧
      ∃ init, (requestAny typeErrorText fetch baseUrl endpoint options).fetched =
        [⟨baseUrl ++ endpoint, init⟩]) ∧
    (options = .null →
      (requestAny typeErrorText fetch baseUrl endpoint options).fetched = [] ∧
      (requestAny typeErrorText fetch baseUrl endpoint options).result =
        .error ⟨"TypeError", typeErrorText⟩) := by
  constructor
  · intro hne
    have h : ∃ fields, requestAny typeErrorText fetch baseUrl endpoint options =
        request fetch baseUrl endpoint fields := by
      cases options with
      | null => exact absurd rfl hne
      | undefined => exact ⟨_, rfl⟩
      | bool b => exact ⟨_, rfl⟩
      | num n => exact ⟨_, rfl⟩
      | str t => exact ⟨_, rfl⟩
      | arr items => exact ⟨_, rfl⟩
      | obj fields => exact ⟨_, rfl⟩
    obtain ⟨fields, hrun⟩ := h
    rw [hrun, request_fetched_eq]
    exact ⟨rfl, _, rfl⟩
  · intro hnull
    subst hnull
    exact ⟨rfl, rfl⟩

/-! ## C17: `createProject` validates the name -/

theorem char_eq_of_toNat (c d : Char) (h : c.toNat = d.toNat) : c = d :=
  Char.ext (UInt32.ext h)

/-- The class `[a-zA-Z0-9_-]` holds the ASCII letters and digits, the hyphen
and the underscore, and nothing else. -/
theorem isNameChar_iff (c : Char) :
    isNameChar c = true ↔ (c.isAlphanum = true ∨ c = '-' ∨ c = '_') := by
  have h45 : c = '-' ↔ c.toNat = 45 :=
    ⟨fun h => by subst h; rfl, fun h => char_eq_of_toNat c '-' h⟩
  have h95 : c = '_' ↔ c.toNat = 95 :=
    ⟨fun h => by subst h; rfl, fun h => char_eq_of_toNat c '_' h⟩
  have a65 : (65 : UInt32) ≤ c.val ↔ 65 ≤ c.toNat := by
    rw [UInt32.le_def, BitVec.le_def]; exact Iff.rfl
  have a90 : c.val ≤ (90 : UInt32) ↔ c.toNat ≤ 90 := by
    rw [UInt32.le_def, BitVec.le_def]; exact Iff.rfl
  have a97 : (97 : UInt32) ≤ c.val ↔ 97 ≤ c.toNat := by
    rw [UInt32.le_def, BitVec.le_def]; exact Iff.rfl
  have a122 : c.val ≤ (122 : UInt32) ↔ c.toNat ≤ 122 := by
    rw [UInt32.le_def, BitVec.le_def]; exact Iff.rfl
  have a48 : (48 : UInt32) ≤ c.val ↔ 48 ≤ c.toNat := by
    rw [UInt32.le_def, BitVec.le_def]; exact Iff.rfl
  have a57 : c.val ≤ (57 : UInt32) ↔ c.toNat ≤ 57 := by
    rw [UInt32.le_def, BitVec.le_def]; exact Iff.rfl
  simp only [isNameChar, Char.isAlphanum, Char.isAlpha, Char.isUpper, Char.isLower, Char.isDigit,
    Bool.or_eq_true, Bool.and_eq_true, decide_eq_true_eq, beq_iff_eq, h45, h95, ge_iff_le]
  rw [a65, a90, a97, a122, a48, a57]
  omega

theorem string_ne_empty (s : String) : s ≠ "" ↔ s.toList ≠ [] := by
  constructor
  · intro h hl
    exact h (String.ext hl)
  · intro h hs
    subst hs
    exact h rfl

/-- The two checks of the name, `!name` and the pattern, pass together
exactly for a valid name. -/
theorem name_checks_iff (name : String) :
    (name ≠ "" ∧ testNamePattern name = true) ↔ ValidName name := by
  unfold ValidName testNamePattern
  constructor
  · rintro ⟨hne, htest⟩
    refine ⟨hne, ?_⟩
    simp only [Bool.and_eq_true, List.all_eq_true] at htest
    intro c hc
    exact (isNameChar_iff c).mp (htest.2 c hc)
  · rintro ⟨hne, hall⟩
    refine ⟨hne, ?_⟩
    simp only [Bool.and_eq_true, List.all_eq_true, Bool.not_eq_true', List.isEmpty_eq_false]
    exact ⟨(string_ne_empty name).mp hne, fun c hc => (isNameChar_iff c).mpr (hall c hc)⟩

theorem createProject_accepts (id created : String) (setItemRaises : Option ErrorValue)
    (app : App) (hvalid : ValidName (jsTrim app.createForm.projectName)) :
    (createProject id created setItemRaises app).app.projects =
      app.projects ++ [newProject id created (jsTrim app.createForm.projectName)
        (jsTrim app.createForm.projectAuthor) app.createForm.projectVersion
        (jsTrim app.createForm.projectDescription) app] := by
  obtain ⟨hne, htest⟩ := (name_checks_iff _).mpr hvalid
  unfold createProject
  simp only [hne, if_false, htest, Bool.not_true, Bool.false_eq_true]
  cases setItemRaises <;> rfl

theorem createProject_rejects (id created : String) (setItemRaises : Option ErrorValue)
    (app : App) (hinvalid : ¬ ValidName (jsTrim app.createForm.projectName)) :
    (createProject id created setItemRaises app).app.projects = app.projects ∧
    (createProject id created setItemRaises app).app.storedProjects = app.storedProjects ∧
    (createProject id created setItemRaises app).app.importedFolder = app.importedFolder ∧
    (createProject id created setItemRaises app).error = none := by
  unfold createProject
  by_cases hne : jsTrim app.createForm.projectName = ""
  · simp [hne]
  · have htest : testNamePattern (jsTrim app.createForm.projectName) = false := by
      cases h : testNamePattern (jsTrim app.createForm.projectName) with
      | false => rfl
      | true => exact absurd ((name_checks_iff _).mp ⟨hne, h⟩) hinvalid
    simp [hne, htest]

/-- C17: `createProject` adds a project exactly when the trimmed name is not
empty and made of ASCII letters, digits, hyphens and underscores only; for
every other name the projects, the stored projects and the imported folder
stay as they were. -/
theorem createProject_adds_iff_valid (id created : String)
    (setItemRaises : Option ErrorValue) (app : App) :
    ((createProject id created setItemRaises app).app.projects ≠ app.projects ↔
      ValidName (jsTrim app.createForm.projectName)) ∧
    (ValidName (jsTrim app.createForm.projectName) →
      (createProject id created setItemRaises app).app.projects =
        app.projects ++ [newProject id created (jsTrim app.createForm.projectName)
          (jsTrim app.createForm.projectAuthor) app.createForm.projectVersion
          (jsTrim app.createForm.projectDescription) app]) ∧
    (¬ ValidName (jsTrim app.createForm.projectName) →
      (createProject id created setItemRaises app).app.projects = app.projects ∧
      (createProject id created setItemRaises app).app.storedProjects = app.storedProjects ∧
      (createProject id created setItemRaises app).app.importedFolder = app.importedFolder) := by
  refine ⟨?_, createProject_accepts id created setItemRaises app, ?_⟩
  · constructor
    · intro hchanged
      by_contra hinvalid
      exact hchanged (createProject_rejects id created setItemRaises app hinvalid).1
    · intro hvalid heq
      rw [createProject_accepts id created setItemRaises app hvalid] at heq
      have := congrArg List.length heq
      simp at this
  · intro hinvalid
    have h := createProject_rejects id created setItemRaises app hinvalid
    exact ⟨h.1, h.2.1, h.2.2.1⟩

/-- C17, on the sample state: the name ` my-app_1 ` is trimmed to a valid
name and the project is appended. -/
theorem createProject_adds_iff_valid_witness :
    (createProject "proj_x1" "2026-01-01T00:00:00.000Z" none sampleApp).app.projects =
      sampleApp.projects ++ [newProject "proj_x1" "2026-01-01T00:00:00.000Z" "my-app_1" "Ada"
        "1.0.0" "" sampleApp] :=
  (createProject_adds_iff_valid "proj_x1" "2026-01-01T00:00:00.000Z" none sampleApp).2.1
    (by unfold ValidName; decide)

/-! ## C18: `createExistingProject` checks the folder, then the name -/

theorem createExistingProject_no_folder (stringify : JSValue → Option String) (app : App)
    (hnone : app.existingImportedFolder.truthy = false) :
    (createExistingProject stringify app).fetched = app.fetched ∧
    (createExistingProject stringify app).alerts =
      app.alerts ++ ["Please import a project folder first"] := by
  simp [createExistingProject, hnone]

theorem createExistingProject_bad_name (stringify : JSValue → Option String) (app : App)
    (hinvalid : ¬ ValidName (jsTrim app.existingForm.existingProjectName)) :
    (createExistingProject stringify app).fetched = app.fetched := by
  unfold createExistingProject
  cases app.existingImportedFolder.truthy with
  | false => simp
  | true =>
    by_cases hne : jsTrim app.existingForm.existingProjectName = ""
    · simp [hne]
    · have htest : testNamePattern (jsTrim app.existingForm.existingProjectName) = false := by
        cases h : testNamePattern (jsTrim app.existingForm.existingProjectName) with
        | false => rfl
        | true => exact absurd ((name_checks_iff _).mp ⟨hne, h⟩) hinvalid
      simp [hne, htest]

theorem createExistingProject_sends (stringify : JSValue → Option String) (app : App)
    (hfolder : app.existingImportedFolder.truthy = true)
    (hvalid : ValidName (jsTrim app.existingForm.existingProjectName)) :
    (createExistingProject stringify app).fetched =
      app.fetched ++ [createProjectCall stringify
        (existingProjectPayload (jsTrim app.existingForm.existingProjectName)
          (jsTrim app.existingForm.existingProjectAuthor)
          app.existingForm.existingProjectVersion
          (jsTrim app.existingForm.existingProjectDescription) app)] := by
  obtain ⟨hne, htest⟩ := (name_checks_iff _).mpr hvalid
  simp [createExistingProject, hfolder, hne, htest]

/-- A truthy value is neither `null` nor `undefined`, so that a property of
it can be read. -/
theorem getProp_of_truthy (v : JSValue) (key : String) (h : v.truthy = true) :
    ∃ w, getProp v key = .ok w := by
  cases v with
  | undefined => simp [JSValue.truthy] at h
  | null => simp [JSValue.truthy] at h
  | bool b => exact ⟨_, rfl⟩
  | num n => exact ⟨_, rfl⟩
  | str t => exact ⟨_, rfl⟩
  | arr items => exact ⟨_, rfl⟩
  | obj fields => exact ⟨_, rfl⟩

/-- C18: `createExistingProject` sends the create-project request exactly
when a folder has been imported and the trimmed name is not empty and made of
ASCII letters, digits, hyphens and underscores only.  The request is then the
one call added: `fetch` of `/api/create-project` with the method `POST`, the
header `Content-Type: application/json` and, as body, the JSON text of the
object holding the trimmed name, the folder path of the imported folder, the
trimmed author (or `Unknown` when that is empty), the version and the trimmed
description.  With no imported folder nothing is sent and the alert is
`Please import a project folder first`, whatever the name. -/
theorem createExistingProject_sends_iff (stringify : JSValue → Option String) (app : App) :
    ((createExistingProject stringify app).fetched ≠ app.fetched ↔
      (app.existingImportedFolder.truthy = true ∧
        ValidName (jsTrim app.existingForm.existingProjectName))) ∧
    (app.existingImportedFolder.truthy = true →
      ValidName (jsTrim app.existingForm.existingProjectName) →
      ∃ folderPath, getProp app.existingImportedFolder "folderPath" = .ok folderPath ∧
        (createExistingProject stringify app).fetched =
          app.fetched ++ [⟨"/api/create-project",
            [("method", .str "POST"),
              ("headers", .obj [("Content-Type", .str "application/json")]),
              ("body", ((stringify (.obj
                [("name", .str (jsTrim app.existingForm.existingProjectName)),
                  ("folderPath", folderPath),
                  ("author", .str
                    (if jsTrim app.existingForm.existingProjectAuthor = "" then "Unknown"
                      else jsTrim app.existingForm.existingProjectAuthor)),
                  ("version", .str app.existingForm.existingProjectVersion),
                  ("description",
                    .str (jsTrim app.existingForm.existingProjectDescription))])).map
                JSValue.str).getD .undefined)]⟩]) ∧
    (app.existingImportedFolder.truthy = false →
      (createExistingProject stringify app).fetched = app.fetched ∧
      (createExistingProject stringify app).alerts =
        app.alerts ++ ["Please import a project folder first"]) := by
  refine ⟨?_, ?_, createExistingProject_no_folder stringify app⟩
  · constructor
    · intro hchanged
      constructor
      · cases h : app.existingImportedFolder.truthy with
        | true => rfl
        | false => exact absurd (createExistingProject_no_folder stringify app h).1 hchanged
      · by_contra hinvalid
        exact hchanged (createExistingProject_bad_name stringify app hinvalid)
    · rintro ⟨hfolder, hvalid⟩ heq
      rw [createExistingProject_sends stringify app hfolder hvalid] at heq
      have := congrArg List.length heq
      simp at this
  · intro hfolder hvalid
    obtain ⟨folderPath, hread⟩ := getProp_of_truthy _ "folderPath" hfolder
    refine ⟨folderPath, hread, ?_⟩
    rw [createExistingProject_sends stringify app hfolder hvalid]
    simp only [createProjectCall, existingProjectPayload, readField, hread]
    cases stringify _ <;> rfl

/-- C18, on the sample states: with no folder imported nothing is sent,
though the name `site` is valid; with the folder imported and the name
` my-site_2 ` the request is sent, and it carries the trimmed name, the
folder path, `Unknown` for the blank author, the version and the trimmed
description. -/
theorem createExistingProject_sends_iff_witness :
    ((createExistingProject fieldLines sampleApp).fetched = sampleApp.fetched ∧
      (createExistingProject fieldLines sampleApp).alerts =
        sampleApp.alerts ++ ["Please import a project folder first"]) ∧
    (createExistingProject fieldLines sampleAppWithFolder).fetched =
      [⟨"/api/create-project",
        [("method", .str "POST"),
          ("headers", .obj [("Content-Type", .str "application/json")]),
          ("body", .str ("name=my-site_2;folderPath=C:/sites/site;author=Unknown;" ++
            "version=2.1.0;description=A site;"))]⟩] := by
  refine ⟨(createExistingProject_sends_iff fieldLines sampleApp).2.2 rfl, ?_⟩
  obtain ⟨folderPath, hread, hsent⟩ :=
    (createExistingProject_sends_iff fieldLines sampleAppWithFolder).2.1 rfl
      (by unfold ValidName; decide)
  have hpath : folderPath = .str "C:/sites/site" := (Except.ok.inj hread).symm
  subst hpath
  rw [hsent]
  rfl

/-! ## C19: the entry `createProject` appends -/

/-- C19: for a valid name and a storage that takes the write, `createProject`
appends one entry after the entries there were, which stay as they are; the
entry has the trimmed name, the trimmed author or `Unknown`, the path `./`
followed by the name, `built` false, the selected template and the folder
imported before the call (`null` if none); afterwards `importedFolder` is
`null` and nothing was raised. -/
theorem createProject_appends_entry (id created : String) (app : App)
    (hvalid : ValidName (jsTrim app.createForm.projectName)) :
    (createProject id created none app).app.projects =
      app.projects ++ [newProject id created (jsTrim app.createForm.projectName)
        (jsTrim app.createForm.projectAuthor) app.createForm.projectVersion
        (jsTrim app.createForm.projectDescription) app] ∧
    getProp (newProject id created (jsTrim app.createForm.projectName)
        (jsTrim app.createForm.projectAuthor) app.createForm.projectVersion
        (jsTrim app.createForm.projectDescription) app) "name" =
      .ok (.str (jsTrim app.createForm.projectName)) ∧
    getProp (newProject id created (jsTrim app.createForm.projectName)
        (jsTrim app.createForm.projectAuthor) app.createForm.projectVersion
        (jsTrim app.createForm.projectDescription) app) "author" =
      .ok (.str (if jsTrim app.createForm.projectAuthor = "" then "Unknown"
        else jsTrim app.createForm.projectAuthor)) ∧
    getProp (newProject id created (jsTrim app.createForm.projectName)
        (jsTrim app.createForm.projectAuthor) app.createForm.projectVersion
        (jsTrim app.createForm.projectDescription) app) "path" =
      .ok (.str ("./" ++ jsTrim app.createForm.projectName)) ∧
    getProp (newProject id created (jsTrim app.createForm.projectName)
        (jsTrim app.createForm.projectAuthor) app.createForm.projectVersion
        (jsTrim app.createForm.projectDescription) app) "built" = .ok (.bool false) ∧
    getProp (newProject id created (jsTrim app.createForm.projectName)
        (jsTrim app.createForm.projectAuthor) app.createForm.projectVersion
        (jsTrim app.createForm.projectDescription) app) "template" =
      .ok (.str app.selectedTemplate) ∧
    getProp (newProject id created (jsTrim app.createForm.projectName)
        (jsTrim app.createForm.projectAuthor) app.createForm.projectVersion
        (jsTrim app.createForm.projectDescription) app) "importedFolder" =
      .ok (if app.importedFolder.truthy then app.importedFolder else .null) ∧
    (createProject id created none app).app.importedFolder = .null ∧
    (createProject id created none app).error = none := by
  obtain ⟨hne, htest⟩ := (name_checks_iff _).mpr hvalid
  refine ⟨createProject_accepts id created none app hvalid, rfl, rfl, rfl, rfl, rfl, rfl, ?_, ?_⟩
  · simp [createProject, hne, htest, updateStats, goToProjectsPage]
  · simp [createProject, hne, htest]

/-- C19, on the sample state: the entry for ` my-app_1 ` by ` Ada `. -/
theorem createProject_appends_entry_witness :
    (createProject "proj_x1" "2026-01-01T00:00:00.000Z" none sampleApp).app.projects =
      sampleApp.projects ++ [.obj [("id", .str "proj_x1"), ("name", .str "my-app_1"),
        ("author", .str "Ada"), ("version", .str "1.0.0"), ("description", .str ""),
        ("template", .str "blank"), ("created", .str "2026-01-01T00:00:00.000Z"),
        ("path", .str "./my-app_1"), ("built", .bool false), ("importedFolder", .null)]] :=
  (createProject_appends_entry "proj_x1" "2026-01-01T00:00:00.000Z" sampleApp
    (by unfold ValidName; decide)).1

/-! ## C20: `addCustomColor` -/

theorem hexChar_toUpper : ∀ (v : Fin 16) (upper : Bool),
    Char.toUpper (hexChar v upper) = hexChar v true := by
  decide

theorem parseInt16_pair : ∀ (v w : Fin 16),
    parseInt16 [hexChar v true, hexChar w true] = some ((16 * v.val + w.val : Nat) : Int) := by
  decide

theorem numberText_nat (n : Nat) : numberText (some (n : Int)) = toString n := rfl

theorem jsToUpperCase_hexColorText (v1 v2 v3 v4 v5 v6 : Fin 16) (u1 u2 u3 u4 u5 u6 : Bool) :
    jsToUpperCase (hexColorText (hexChar v1 u1) (hexChar v2 u2) (hexChar v3 u3)
      (hexChar v4 u4) (hexChar v5 u5) (hexChar v6 u6)) =
    hexColorText (hexChar v1 true) (hexChar v2 true) (hexChar v3 true)
      (hexChar v4 true) (hexChar v5 true) (hexChar v6 true) := by
  have h : Char.toUpper '#' = '#' := by decide
  simp [jsToUpperCase, hexColorText, hexChar_toUpper, h]

/-- C20: for a picker value `#` followed by six hexadecimal digits of either
case, `addCustomColor` appends one colour after the colours there were: its
`hex` is the value in upper case, its `rgb` is `rgb(R, G, B)` with `R`, `G`
and `B` the values of the first, second and third pair of digits, each at
most 255, and its name is the trimmed input, or `Custom Color` when that is
empty. -/
theorem addCustomColor_appends (setItemRaises : Option ErrorValue) (app : App)
    (v1 v2 v3 v4 v5 v6 : Fin 16) (u1 u2 u3 u4 u5 u6 : Bool)
    (hpicker : app.colorPanel.colorPicker =
      hexColorText (hexChar v1 u1) (hexChar v2 u2) (hexChar v3 u3)
        (hexChar v4 u4) (hexChar v5 u5) (hexChar v6 u6)) :
    (addCustomColor setItemRaises app).app.customColors =
      app.customColors ++
        [{ name := if jsTrim app.colorPanel.colorNameInput = "" then "Custom Color"
            else jsTrim app.colorPanel.colorNameInput
           hex := hexColorText (hexChar v1 true) (hexChar v2 true) (hexChar v3 true)
            (hexChar v4 true) (hexChar v5 true) (hexChar v6 true)
           rgb := "rgb(" ++ toString (16 * v1.val + v2.val) ++ ", " ++
            toString (16 * v3.val + v4.val) ++ ", " ++
            toString (16 * v5.val + v6.val) ++ ")" }] ∧
    16 * v1.val + v2.val ≤ 255 ∧ 16 * v3.val + v4.val ≤ 255 ∧ 16 * v5.val + v6.val ≤ 255 := by
  refine ⟨?_, by omega, by omega, by omega⟩
  have hslice1 : jsSlice (hexColorText (hexChar v1 true) (hexChar v2 true) (hexChar v3 true)
      (hexChar v4 true) (hexChar v5 true) (hexChar v6 true)) 1 3 =
      [hexChar v1 true, hexChar v2 true] := rfl
  have hslice2 : jsSlice (hexColorText (hexChar v1 true) (hexChar v2 true) (hexChar v3 true)
      (hexChar v4 true) (hexChar v5 true) (hexChar v6 true)) 3 5 =
      [hexChar v3 true, hexChar v4 true] := rfl
  have hslice3 : jsSlice (hexColorText (hexChar v1 true) (hexChar v2 true) (hexChar v3 true)
      (hexChar v4 true) (hexChar v5 true) (hexChar v6 true)) 5 7 =
      [hexChar v5 true, hexChar v6 true] := rfl
  unfold addCustomColor
  simp only [hpicker, jsToUpperCase_hexColorText, hslice1, hslice2, hslice3, parseInt16_pair,
    numberText_nat]
  cases setItemRaises <;> rfl

/-- C20, on the sample state: the picker holds `#1a2B3c` and the name input
` Sea `. -/
theorem addCustomColor_appends_witness :
    (addCustomColor none sampleApp).app.customColors =
      sampleApp.customColors ++
        [{ name := "Sea", hex := "#1A2B3C", rgb := "rgb(26, 43, 60)" }] :=
  (addCustomColor_appends none sampleApp 1 10 2 11 3 12 false false false true false false
    rfl).1

/-! ## C22: the headers `request` passes on -/

theorem lookup_append (key : String) (xs ys : List (String × JSValue)) :
    JSValue.lookup key (xs ++ ys) =
      match JSValue.lookup key xs with
      | some v => some v
      | none => JSValue.lookup key ys := by
  induction xs with
  | nil => rfl
  | cons x rest ih =>
    obtain ⟨k, v⟩ := x
    simp only [List.cons_append, JSValue.lookup]
    split
    · rfl
    · exact ih

/-- C22: one call of `request` makes one call of `fetch`, to the address
`baseUrl` followed by `endpoint`.  When `options` has no `headers` property,
that call carries the headers `Content-Type: application/json` and no other;
when it has one, the call carries the value of `options.headers` itself, so
the default `Content-Type` is there only if that value supplies it.  Every
other property of `options` is passed on as it is. -/
theorem request_headers (fetch : FetchCall → Except ErrorValue Response)
    (baseUrl endpoint : String) (options : List (String × JSValue)) :
    (JSValue.lookup "headers" options = none →
      ∃ call, (request fetch baseUrl endpoint options).fetched = [call] ∧
        call.url = baseUrl ++ endpoint ∧
        JSValue.lookup "headers" call.init =
          some (.obj [("Content-Type", .str "application/json")])) ∧
    (∀ headers, JSValue.lookup "headers" options = some headers →
      ∃ call, (request fetch baseUrl endpoint options).fetched = [call] ∧
        call.url = baseUrl ++ endpoint ∧
        JSValue.lookup "headers" call.init = some headers) ∧
    (∀ key value, key ≠ "headers" → JSValue.lookup key options = some value →
      ∃ call, (request fetch baseUrl endpoint options).fetched = [call] ∧
        JSValue.lookup key call.init = some value) := by
  rw [request_fetched_eq]
  refine ⟨?_, ?_, ?_⟩
  · intro hnone
    refine ⟨_, rfl, rfl, ?_⟩
    simp [requestCall, requestInit, lookup_append, hnone, spreadFields, JSValue.lookup]
  · intro headers hsome
    refine ⟨_, rfl, rfl, ?_⟩
    simp [requestCall, requestInit, lookup_append, hsome]
  · intro key value _ hsome
    refine ⟨_, rfl, ?_⟩
    simp [requestCall, requestInit, lookup_append, hsome]

/-- C22, at the options of `createProject` of the `BuilderAPI` (a method and
a body, no headers) and at options that bring headers of their own: in each
case one call, with the default headers in the first and the headers given in
the second. -/
theorem request_headers_witness :
    (∃ call, (request networkDown "http://localhost:8000/api" "/projects"
        [("method", .str "POST"), ("body", .str "x")]).fetched = [call] ∧
      call.url = "http://localhost:8000/api" ++ "/projects" ∧
      JSValue.lookup "headers" call.init =
        some (.obj [("Content-Type", .str "application/json")])) ∧
    (∃ call, (request networkDown "http://localhost:8000/api" "/projects"
        [("headers", .obj [("Accept", .str "text/plain")])]).fetched = [call] ∧
      call.url = "http://localhost:8000/api" ++ "/projects" ∧
      JSValue.lookup "headers" call.init = some (.obj [("Accept", .str "text/plain")])) :=
  ⟨(request_headers networkDown "http://localhost:8000/api" "/projects"
      [("method", .str "POST"), ("body", .str "x")]).1 rfl,
    (request_headers networkDown "http://localhost:8000/api" "/projects"
      [("headers", .obj [("Accept", .str "text/plain")])]).2.1 _ rfl⟩

/-! ## C23: a constructor that raises ends the reconnection -/

theorem connect_raised (e : JSError) (rt : Runtime) :
    connect (some e) rt =
      .ok { rt with console := rt.console ++ ["WebSocket connection failed:"] } := rfl

theorem quiet_step (ev : ChannelEvent) (rt : Runtime) (hq : rt.Quiet) :
    (ev.step rt).Quiet ∧ (ev.step rt).channel.ws = rt.channel.ws := by
  obtain ⟨⟨url, ws⟩, wired, timers, console⟩ := rt
  obtain ⟨ht, hs⟩ := hq
  simp only at ht
  subst ht
  cases ws with
  | none =>
    cases ev <;> exact ⟨⟨rfl, fun sock h => by cases h⟩, rfl⟩
  | some sock =>
    have hclosed : sock.readyState = ReadyState.closed := hs sock rfl
    cases ev with
    | opened =>
      simp only [ChannelEvent.step, hclosed]
      exact ⟨⟨rfl, hs⟩, rfl⟩
    | failed =>
      simp only [ChannelEvent.step]
      cases wired <;> exact ⟨⟨rfl, hs⟩, rfl⟩
    | closed =>
      simp only [ChannelEvent.step, hclosed]
      exact ⟨⟨rfl, hs⟩, rfl⟩
    | timerFired raised => exact ⟨⟨rfl, hs⟩, rfl⟩

theorem quiet_run (events : List ChannelEvent) (rt : Runtime) (hq : rt.Quiet) :
    connectCalls events rt = 0 ∧ (runChannel events rt).channel.ws = rt.channel.ws ∧
    (runChannel events rt).timers = [] := by
  induction events generalizing rt with
  | nil => exact ⟨rfl, rfl, hq.1⟩
  | cons ev rest ih =>
    obtain ⟨hq1, hws⟩ := quiet_step ev rt hq
    obtain ⟨h1, h2, h3⟩ := ih (ev.step rt) hq1
    refine ⟨?_, by simp only [runChannel]; rw [h2, hws], by simp only [runChannel]; exact h3⟩
    simp only [connectCalls, h1, hq.1]

theorem settled_step (ev : ChannelEvent) (rt : Runtime) (hs : rt.Settled) :
    (ev.step rt).Settled := by
  obtain ⟨⟨url, ws⟩, wired, timers, console⟩ := rt
  rcases hs with ht | ⟨ht, hc⟩
  · simp only at ht
    subst ht
    cases ws with
    | none => cases ev <;> exact Or.inl rfl
    | some sock =>
      cases ev with
      | opened =>
        simp only [ChannelEvent.step]
        split
        · cases wired <;> exact Or.inl rfl
        · exact Or.inl rfl
      | failed =>
        simp only [ChannelEvent.step]
        cases wired <;> exact Or.inl rfl
      | closed =>
        simp only [ChannelEvent.step]
        split
        · exact Or.inl rfl
        · cases wired
          · exact Or.inl rfl
          · refine Or.inr ⟨rfl, ?_⟩
            intro s hs
            simp [onclose, Runtime.setReadyState] at hs
            subst hs
            rfl
      | timerFired raised => exact Or.inl rfl
  · simp only at ht
    subst ht
    cases ws with
    | none =>
      cases ev with
      | timerFired raised => cases raised <;> exact Or.inl rfl
      | opened => exact Or.inr ⟨rfl, hc⟩
      | failed => exact Or.inr ⟨rfl, hc⟩
      | closed => exact Or.inr ⟨rfl, hc⟩
    | some sock =>
      have hclosed : sock.readyState = ReadyState.closed := hc sock rfl
      cases ev with
      | opened =>
        simp only [ChannelEvent.step, hclosed]
        exact Or.inr ⟨rfl, hc⟩
      | failed =>
        simp only [ChannelEvent.step]
        cases wired <;> exact Or.inr ⟨rfl, hc⟩
      | closed =>
        simp only [ChannelEvent.step, hclosed]
        exact Or.inr ⟨rfl, hc⟩
      | timerFired raised => cases raised <;> exact Or.inl rfl

theorem settled_run (events : List ChannelEvent) (rt : Runtime) (hs : rt.Settled) :
    (runChannel events rt).Settled := by
  induction events generalizing rt with
  | nil => exact hs
  | cons ev rest ih => exact ih _ (settled_step ev rt hs)

theorem settled_start (url : String) (raised : Option JSError) :
    (startChannel url raised).Settled := by
  cases raised <;> exact Or.inl rfl

theorem timer_raised_step (e : JSError) (rt : Runtime)
    (ht : rt.timers = [reconnectDelay]) :
    (ChannelEvent.timerFired (some e)).step rt =
      { rt with timers := [], console := rt.console ++ ["WebSocket connection failed:"] } := by
  obtain ⟨channel, wired, timers, console⟩ := rt
  simp only at ht
  subst ht
  rfl

/-- C23: when `new WebSocket` raises inside `connect()`, the call changes
nothing but the console: `this.ws` keeps its value, no handler is installed
and no timer is set.  Raised in the constructor, it leaves a channel with no
socket and no timer; raised in a reconnection (a timer fired), it leaves the
closed socket and no timer.  In both cases no later event makes the channel
call `connect()` again, and `this.ws` stays as it is. -/
theorem constructor_raise_ends_reconnection (url : String) (raised : Option JSError)
    (events later : List ChannelEvent) (e : JSError) :
    (∀ rt : Runtime, ∃ rt1, connect (some e) rt = .ok rt1 ∧
      rt1.channel.ws = rt.channel.ws ∧ rt1.wired = rt.wired ∧ rt1.timers = rt.timers) ∧
    ((startChannel url (some e)).channel.ws = none ∧
      (startChannel url (some e)).wired = false ∧
      (startChannel url (some e)).timers = [] ∧
      connectCalls later (startChannel url (some e)) = 0 ∧
      (runChannel later (startChannel url (some e))).channel.ws = none) ∧
    ((runChannel events (startChannel url raised)).timers ≠ [] →
      ((ChannelEvent.timerFired (some e)).step
          (runChannel events (startChannel url raised))).channel.ws =
        (runChannel events (startChannel url raised)).channel.ws ∧
      ((ChannelEvent.timerFired (some e)).step
          (runChannel events (startChannel url raised))).wired =
        (runChannel events (startChannel url raised)).wired ∧
      ((ChannelEvent.timerFired (some e)).step
          (runChannel events (startChannel url raised))).timers = [] ∧
      connectCalls later ((ChannelEvent.timerFired (some e)).step
          (runChannel events (startChannel url raised))) = 0 ∧
      (runChannel later ((ChannelEvent.timerFired (some e)).step
          (runChannel events (startChannel url raised)))).channel.ws =
        (runChannel events (startChannel url raised)).channel.ws) := by
  refine ⟨fun rt => ⟨_, connect_raised e rt, rfl, rfl, rfl⟩, ?_, ?_⟩
  · have hq : (startChannel url (some e)).Quiet := ⟨rfl, fun sock h => by cases h⟩
    obtain ⟨h1, h2, _⟩ := quiet_run later _ hq
    exact ⟨rfl, rfl, rfl, h1, h2⟩
  · intro hpending
    rcases settled_run events _ (settled_start url raised) with ht | ⟨ht, hc⟩
    · exact absurd ht hpending
    · rw [timer_raised_step e _ ht]
      have hq : Runtime.Quiet
          { runChannel events (startChannel url raised) with
            timers := []
            console := (runChannel events (startChannel url raised)).console ++
              ["WebSocket connection failed:"] } := ⟨rfl, hc⟩
      obtain ⟨h1, h2, _⟩ := quiet_run later _ hq
      exact ⟨rfl, rfl, rfl, h1, h2⟩

/-- C23, on a channel whose socket opened and closed, so that a reconnection
is pending: the timer fires, `new WebSocket` raises, and the events that
follow make no call of `connect()`. -/
theorem constructor_raise_ends_reconnection_witness :
    connectCalls [.closed, .timerFired none, .opened, .failed]
      ((ChannelEvent.timerFired (some JSError.syntaxError)).step
        (runChannel [.opened, .closed] (startChannel "ws://localhost:8000/ws" none))) = 0 ∧
    ((ChannelEvent.timerFired (some JSError.syntaxError)).step
        (runChannel [.opened, .closed] (startChannel "ws://localhost:8000/ws" none))).timers
      = [] :=
  have h := (constructor_raise_ends_reconnection "ws://localhost:8000/ws" none
    [.opened, .closed] [.closed, .timerFired none, .opened, .failed]
    JSError.syntaxError).2.2 (by decide)
  ⟨h.2.2.2.1, h.2.2.1⟩

/-! ## C24: `deleteColor` -/

theorem keepOtherIndices_below (k : Int) (start : Nat) (colors : List Color)
    (h : k < (start : Int)) : keepOtherIndices k start colors = colors := by
  induction colors generalizing start with
  | nil => rfl
  | cons c rest ih =>
    have hne : (start : Int) ≠ k := by omega
    simp only [keepOtherIndices, hne, ne_eq, not_false_eq_true, if_true]
    rw [ih (start + 1) (by push_cast; omega)]

theorem keepOtherIndices_erase (start n : Nat) (colors : List Color) :
    keepOtherIndices ((start + n : Nat) : Int) start colors = colors.eraseIdx n := by
  induction colors generalizing start n with
  | nil => rfl
  | cons c rest ih =>
    cases n with
    | zero =>
      simp only [keepOtherIndices, Nat.add_zero, ne_eq, not_true_eq_false, if_false,
        List.eraseIdx_cons_zero]
      exact keepOtherIndices_below _ _ _ (by push_cast; omega)
    | succ m =>
      have hne : (start : Int) ≠ ((start + (m + 1) : Nat) : Int) := by push_cast; omega
      simp only [keepOtherIndices, hne, ne_eq, not_false_eq_true, if_true,
        List.eraseIdx_cons_succ]
      have h := ih (start + 1) m
      rw [show start + 1 + m = start + (m + 1) by omega] at h
      rw [h]

/-- C24: for an index below the number of colours shown, a confirmed
`deleteColor(index)` leaves `customColors` with the element at position
`index - 12` removed and the others in their order when `index` is 12 or
more, and leaves it as it was when `index` is below 12, the index of one of
the twelve default colours.  `defaultColors` is a constant that `deleteColor`
reads and never writes. -/
theorem deleteColor_removes (typeErrorText : String) (setItemRaises : Option ErrorValue)
    (index : Nat) (app : App)
    (hindex : index < defaultColors.length + app.customColors.length) :
    defaultColors.length = 12 ∧
    (12 ≤ index →
      (deleteColor typeErrorText true setItemRaises index app).app.customColors =
        app.customColors.eraseIdx (index - 12)) ∧
    (index < 12 →
      (deleteColor typeErrorText true setItemRaises index app).app.customColors =
        app.customColors) := by
  have hlen : defaultColors.length = 12 := rfl
  have hget : ∃ c, (defaultColors ++ app.customColors)[index]? = some c := by
    have hlt : index < (defaultColors ++ app.customColors).length := by
      rw [List.length_append]; exact hindex
    exact ⟨_, List.getElem?_eq_getElem hlt⟩
  obtain ⟨c, hc⟩ := hget
  have hrun : (deleteColor typeErrorText true setItemRaises index app).app.customColors =
      keepOtherIndices ((index : Int) - 12) 0 app.customColors := by
    unfold deleteColor
    rw [hc]
    simp only [if_true, hlen]
    cases setItemRaises <;> rfl
  refine ⟨hlen, ?_, ?_⟩
  · intro hge
    rw [hrun]
    have h := keepOtherIndices_erase 0 (index - 12) app.customColors
    rw [show ((0 + (index - 12) : Nat) : Int) = (index : Int) - 12 by omega] at h
    exact h
  · intro hlt
    rw [hrun]
    exact keepOtherIndices_below _ _ _ (by omega)

/-- C24, on the sample state with three custom colours: index 13 removes the
second of them, index 3 (a default colour) removes none. -/
theorem deleteColor_removes_witness :
    (deleteColor "" true none 13 sampleAppWithColors).app.customColors =
      [⟨"Sea", "#1A2B3C", "rgb(26, 43, 60)"⟩, ⟨"Moss", "#8A9A5B", "rgb(138, 154, 91)"⟩] ∧
    (deleteColor "" true none 3 sampleAppWithColors).app.customColors =
      sampleAppWithColors.customColors :=
  ⟨(deleteColor_removes "" none 13 sampleAppWithColors (by decide)).2.1 (by decide),
    (deleteColor_removes "" none 3 sampleAppWithColors (by decide)).2.2 (by decide)⟩

/-! ## C21: a successful build marks the selected project -/

theorem lookup_setField_same (key : String) (v : JSValue) (fields : List (String × JSValue)) :
    JSValue.lookup key (setField key v fields) = some v := by
  induction fields with
  | nil => simp [setField, JSValue.lookup]
  | cons x rest ih =>
    obtain ⟨k, w⟩ := x
    by_cases hk : k = key
    · simp [setField, JSValue.lookup, hk]
    · simp [setField, JSValue.lookup, hk, ih]

theorem lookup_setField_other (key other : String) (v : JSValue)
    (fields : List (String × JSValue)) (hne : other ≠ key) :
    JSValue.lookup other (setField key v fields) = JSValue.lookup other fields := by
  induction fields with
  | nil => simp [setField, JSValue.lookup, Ne.symm hne]
  | cons x rest ih =>
    obtain ⟨k, w⟩ := x
    by_cases hk : k = key
    · subst hk
      simp [setField, JSValue.lookup, Ne.symm hne]
    · by_cases hko : k = other
      · subst hko
        simp [setField, JSValue.lookup, hk]
      · simp [setField, JSValue.lookup, hk, hko, ih]

/-- The project `find` returns is an object whose `id` is the string looked
for. -/
theorem findProject_found (projectId : String) (projects : List JSValue) (i : Nat)
    (h : findProject projectId projects = .ok (some i)) :
    ∃ fields, projects[i]? = some (.obj fields) ∧
      JSValue.lookup "id" fields = some (.str projectId) := by
  induction projects generalizing i with
  | nil => simp [findProject] at h
  | cons p rest ih =>
    unfold findProject at h
    cases hid : getProp p "id" with
    | error e => simp [hid] at h
    | ok v =>
      simp only [hid] at h
      by_cases hs : isString v projectId = true
      · simp only [hs, if_true, Except.ok.injEq, Option.some.injEq] at h
        subst h
        cases p with
        | obj fields =>
          refine ⟨fields, by simp, ?_⟩
          simp only [getProp, Except.ok.injEq] at hid
          subst hid
          cases hl : JSValue.lookup "id" fields with
          | none => simp [hl, isString] at hs
          | some w =>
            cases w <;> simp_all [isString]
        | undefined => simp [getProp] at hid
        | null => simp [getProp] at hid
        | bool b => simp [getProp] at hid; subst hid; simp [isString] at hs
        | num n => simp [getProp] at hid; subst hid; simp [isString] at hs
        | str s => simp [getProp] at hid; subst hid; simp [isString] at hs
        | arr items => simp [getProp] at hid; subst hid; simp [isString] at hs
      · simp only [hs, Bool.false_eq_true, if_false] at h
        cases hrest : findProject projectId rest with
        | error e => simp [hrest] at h
        | ok found =>
          cases found with
          | none => simp [hrest] at h
          | some j =>
            simp only [hrest, Except.ok.injEq, Option.some.injEq] at h
            subst h
            obtain ⟨fields, hget, hlook⟩ := ih j hrest
            exact ⟨fields, by simpa using hget, hlook⟩

theorem onBuildFailure_keeps (error : ErrorValue) (st : BuildState) :
    (onBuildFailure error st).app.projects = st.app.projects ∧
    (onBuildFailure error st).app.builtCount = st.app.builtCount := ⟨rfl, rfl⟩

theorem markProjectBuilt_effect (setItemRaises : Option ErrorValue) (i : Nat) (app : App)
    (p : JSValue) (hget : app.projects[i]? = some p) :
    (markProjectBuilt setItemRaises i app).1.projects = app.projects.set i (markBuilt p) ∧
    (markProjectBuilt setItemRaises i app).1.builtCount = app.builtCount + 1 := by
  unfold markProjectBuilt
  cases setItemRaises <;> simp [hget, updateStats]

theorem buildSettled_success (typeErrorText : String) (setItemRaises : Option ErrorValue)
    (data : JSValue) (st : BuildState) (i : Nat) (p : JSValue)
    (hsuccess : getProp data "success" = .ok (.bool true))
    (hpath : Converts data "exePath")
    (hfound : findProject st.panel.buildProject st.app.projects = .ok (some i))
    (hget : st.app.projects[i]? = some p) :
    (buildSettled typeErrorText setItemRaises (.ok data) st).app.projects =
      st.app.projects.set i (markBuilt p) ∧
    (buildSettled typeErrorText setItemRaises (.ok data) st).app.builtCount =
      st.app.builtCount + 1 := by
  obtain ⟨v, text, hv, htext⟩ := hpath
  have hfield : fieldText data "exePath" = some text := by simp [fieldText, hv, htext]
  have hmark := markProjectBuilt_effect setItemRaises i st.app p hget
  unfold buildSettled onBuildResponse
  simp only [hsuccess, JSValue.truthy, if_true, hfield, hfound]
  cases hm : markProjectBuilt setItemRaises i st.app with
  | mk app4 err =>
    rw [hm] at hmark
    cases err with
    | none => exact hmark
    | some e => exact hmark

theorem buildSettled_refused (typeErrorText : String) (setItemRaises : Option ErrorValue)
    (data : JSValue) (st : BuildState)
    (hsuccess : getProp data "success" = .ok (.bool false)) :
    (buildSettled typeErrorText setItemRaises (.ok data) st).app.projects = st.app.projects ∧
    (buildSettled typeErrorText setItemRaises (.ok data) st).app.builtCount =
      st.app.builtCount := by
  unfold buildSettled onBuildResponse
  simp only [hsuccess, JSValue.truthy, Bool.false_eq_true, if_false]
  cases fieldText data "error" <;> exact ⟨rfl, rfl⟩

/-- A response with `success` true whose `exePath` cannot be put into the
log text: line 595 raises, and the callback of `.catch` runs instead of the
lines that mark the project. -/
theorem buildSettled_unconvertible (typeErrorText : String) (setItemRaises : Option ErrorValue)
    (data : JSValue) (st : BuildState)
    (hsuccess : getProp data "success" = .ok (.bool true))
    (hpath : ¬ Converts data "exePath") :
    (buildSettled typeErrorText setItemRaises (.ok data) st).app.projects = st.app.projects ∧
    (buildSettled typeErrorText setItemRaises (.ok data) st).app.builtCount =
      st.app.builtCount := by
  have hfield : fieldText data "exePath" = none := by
    unfold fieldText
    cases hv : getProp data "exePath" with
    | error e => rfl
    | ok v =>
      cases ht : jsToString v with
      | none => simp [ht]
      | some text => exact absurd ⟨v, text, hv, ht⟩ hpath
  unfold buildSettled onBuildResponse
  simp only [hsuccess, JSValue.truthy, if_true, hfield]
  exact ⟨rfl, rfl⟩

/-- C21, the claim as stated fails: on the sample build the response has
`success` true and the selected project is in `projects`, but its `exePath`
is an object whose own property `toString` is not a function.  Forming the
log text at line 595 raises a `TypeError`, the lines 597 to 605 are not
reached, and the project is not marked: `projects` and `builtCount` are as
before, and the build is reported as failed. -/
theorem successful_build_not_marked :
    getProp (.obj [("success", .bool true),
      ("exePath", .obj [("toString", .num ⟨1, by decide⟩)])]) "success" = .ok (.bool true) ∧
    findProject sampleBuild.panel.buildProject sampleBuild.app.projects = .ok (some 1) ∧
    (buildSettled "Cannot convert object to primitive value" none
      (.ok (.obj [("success", .bool true),
        ("exePath", .obj [("toString", .num ⟨1, by decide⟩)])]))
      sampleBuild).app.projects = sampleBuild.app.projects ∧
    (buildSettled "Cannot convert object to primitive value" none
      (.ok (.obj [("success", .bool true),
        ("exePath", .obj [("toString", .num ⟨1, by decide⟩)])]))
      sampleBuild).app.builtCount = 0 ∧
    (buildSettled "Cannot convert object to primitive value" none
      (.ok (.obj [("success", .bool true),
        ("exePath", .obj [("toString", .num ⟨1, by decide⟩)])]))
      sampleBuild).panel.buildStatus = "❌ Build failed!" :=
  ⟨rfl, rfl, rfl, rfl, rfl⟩

/-- C21, amended: when the response has `success` true and an `exePath` that
converts to text, and the selected project id is found in `projects`, the
callbacks of `executeBuild` set `built` to true on that project, keep its
other properties and every other project as they are, and raise `builtCount`
by exactly 1; when the response has `success` true and an `exePath` that does
not convert to text, or has `success` false, or the request fails, `projects`
and `builtCount` stay as they were. -/
theorem build_marks_selected_project (typeErrorText : String)
    (setItemRaises : Option ErrorValue) (data : JSValue) (e : ErrorValue)
    (st : BuildState) (i : Nat) :
    (getProp data "success" = .ok (.bool true) → Converts data "exePath" →
      findProject st.panel.buildProject st.app.projects = .ok (some i) →
      ∃ fields, st.app.projects[i]? = some (.obj fields) ∧
        JSValue.lookup "id" fields = some (.str st.panel.buildProject) ∧
        (buildSettled typeErrorText setItemRaises (.ok data) st).app.projects =
          st.app.projects.set i (.obj (setField "built" (.bool true) fields)) ∧
        JSValue.lookup "built" (setField "built" (.bool true) fields) = some (.bool true) ∧
        (∀ key, key ≠ "built" →
          JSValue.lookup key (setField "built" (.bool true) fields) =
            JSValue.lookup key fields) ∧
        (buildSettled typeErrorText setItemRaises (.ok data) st).app.builtCount =
          st.app.builtCount + 1) ∧
    (getProp data "success" = .ok (.bool true) → ¬ Converts data "exePath" →
      (buildSettled typeErrorText setItemRaises (.ok data) st).app.projects =
        st.app.projects ∧
      (buildSettled typeErrorText setItemRaises (.ok data) st).app.builtCount =
        st.app.builtCount) ∧
    (getProp data "success" = .ok (.bool false) →
      (buildSettled typeErrorText setItemRaises (.ok data) st).app.projects =
        st.app.projects ∧
      (buildSettled typeErrorText setItemRaises (.ok data) st).app.builtCount =
        st.app.builtCount) ∧
    ((buildSettled typeErrorText setItemRaises (.error e) st).app.projects = st.app.projects ∧
      (buildSettled typeErrorText setItemRaises (.error e) st).app.builtCount =
        st.app.builtCount) := by
  refine ⟨?_, buildSettled_unconvertible typeErrorText setItemRaises data st,
    buildSettled_refused typeErrorText setItemRaises data st, rfl, rfl⟩
  intro hsuccess hpath hfound
  obtain ⟨fields, hget, hid⟩ := findProject_found _ _ i hfound
  have h := buildSettled_success typeErrorText setItemRaises data st i _ hsuccess hpath
    hfound hget
  exact ⟨fields, hget, hid, h.1, lookup_setField_same _ _ _,
    fun key hne => lookup_setField_other _ key _ _ hne, h.2⟩

/-- C21, amended, on the sample build: the response `success: true` with the
path `dist/second.exe` marks the second project, the selected one, and leaves
the first as it is; the count goes from 0 to 1. -/
theorem build_marks_selected_project_witness :
    (buildSettled "" none
      (.ok (.obj [("success", .bool true), ("exePath", .str "dist/second.exe")]))
      sampleBuild).app.projects =
      [.obj [("id", .str "proj_abc"), ("name", .str "first"), ("built", .bool false)],
        .obj [("id", .str "proj_def"), ("name", .str "second"), ("built", .bool true)]] ∧
    (buildSettled "" none
      (.ok (.obj [("success", .bool true), ("exePath", .str "dist/second.exe")]))
      sampleBuild).app.builtCount = 0 + 1 := by
  obtain ⟨fields, hget, _, hprojects, _, _, hcount⟩ :=
    (build_marks_selected_project "" none
      (.obj [("success", .bool true), ("exePath", .str "dist/second.exe")])
      ⟨"TypeError", "Failed to fetch"⟩ sampleBuild 1).1 rfl ⟨_, _, rfl, rfl⟩ rfl
  have hfields : fields = [("id", .str "proj_def"), ("name", .str "second")] := by
    have h2 : sampleBuild.app.projects[1]? =
        some (.obj [("id", .str "proj_def"), ("name", .str "second")]) := rfl
    rw [h2] at hget
    exact (JSValue.obj.inj (Option.some.inj hget)).symm
  subst hfields
  exact ⟨hprojects, hcount⟩

end BuilderUI
